import Mathlib

/-!
# Verification of the `interface-proxy` RPC library

A shallow embedding of `src/interface_proxy/server.py` and
`src/interface_proxy/client.py`.  Python values are modelled by the inductive
type `Py`; Python exceptions by `PyErr`; JSON-loaded message structures reuse
`Py` (Python's `json.loads` produces ordinary dicts/lists/primitives).
Machine floats are modelled by `PFloat` (NaN, signed infinities, and finite
values abstracted as exact rationals); Python's `==` on floats is modelled by
`pyFloatEq`, under which NaN compares unequal to everything including itself.
-/

set_option maxHeartbeats 1000000

namespace InterfaceProxy

/-- A Python `float`: NaN, an infinity (`neg` gives the sign), or a finite
double abstracted as its exact rational value. -/
inductive PFloat where
  | nan : PFloat
  | infty (neg : Bool) : PFloat
  | fin (q : ℚ) : PFloat
deriving DecidableEq, Repr

/-- Python `==` on floats: NaN is unequal to everything, itself included. -/
def pyFloatEq : PFloat → PFloat → Bool
  | .nan, _ => false
  | _, .nan => false
  | .infty a, .infty b => a == b
  | .fin a, .fin b => a == b
  | _, _ => false

/-- The universe of Python runtime values used by the library.

`list`/`tuple`/`dict` are the containers the codecs care about; `remoteVar`
is an instance of the client's `RemoteVar` wrapper class (its field
`variable_reference_name` holds the payload it was constructed with); `obj`
is any other Python object, identified by its `id()` and the name of its
class (`type(x).__name__`).  Dict keys are restricted to strings, which is
all the JSON layer can produce. -/
inductive Py where
  | none : Py
  | bool (b : Bool) : Py
  | int (n : ℤ) : Py
  | float (f : PFloat) : Py
  | str (s : String) : Py
  | list (xs : List Py) : Py
  | tuple (xs : List Py) : Py
  | dict (kvs : List (String × Py)) : Py
  | remoteVar (ref : Py) : Py
  | obj (oid : Nat) (tyName : String) : Py

/-- `type(x).__name__` for the values of `Py`. -/
def typeName : Py → String
  | .none => "NoneType"
  | .bool _ => "bool"
  | .int _ => "int"
  | .float _ => "float"
  | .str _ => "str"
  | .list _ => "list"
  | .tuple _ => "tuple"
  | .dict _ => "dict"
  | .remoteVar _ => "RemoteVar"
  | .obj _ ty => ty

/-- First-match lookup in a string-keyed association list (Python dict lookup;
the list is kept most-recent-binding-first, matching overwrite semantics). -/
def lookupStr : List (String × Py) → String → Option Py
  | [], _ => Option.none
  | (k, v) :: rest, key => if k = key then some v else lookupStr rest key

/-- The numeric value of a Python number (`bool` counts as `0`/`1`), used by
Python's cross-type numeric `==`. -/
def asNum : Py → Option PFloat
  | .bool b => some (.fin (if b then 1 else 0))
  | .int n => some (.fin (n : ℚ))
  | .float f => some f
  | _ => Option.none

mutual

/-- Python `==` on the fragment of values this development compares.
Numbers (bool/int/float) compare by numeric value with NaN unequal to
everything; strings, lists and tuples compare element-wise; plain objects
compare by identity (default `object.__eq__`).  Two `RemoteVar` wrapper
instances compare unequal: the wrappers have the default identity equality
and their object identity is not tracked here.  Dicts are compared pairwise
in insertion order — Python's dict `==` is insertion-order-insensitive, but
no claim of this development ever compares two dicts whose key orders
differ, so the two notions agree everywhere they are applied. -/
def pyEq : Py → Py → Bool
  | .none, .none => true
  | .str a, .str b => a == b
  | .list xs, .list ys => pyEqList xs ys
  | .tuple xs, .tuple ys => pyEqList xs ys
  | .dict xs, .dict ys => pyEqDicts xs ys
  | .remoteVar _, .remoteVar _ => false
  | .obj i _, .obj j _ => i == j
  | a, b =>
    match asNum a, asNum b with
    | some x, some y => pyFloatEq x y
    | _, _ => false

def pyEqList : List Py → List Py → Bool
  | [], [] => true
  | x :: xs, y :: ys => pyEq x y && pyEqList xs ys
  | _, _ => false

def pyEqDicts : List (String × Py) → List (String × Py) → Bool
  | [], [] => true
  | (k1, v1) :: xs, (k2, v2) :: ys => k1 == k2 && pyEq v1 v2 && pyEqDicts xs ys
  | _, _ => false

end

/-! ## Python `str()` of integers (decimal rendering) -/

/-- The character for a decimal digit. -/
def digitChar (d : Nat) : Char :=
  if d = 0 then '0' else if d = 1 then '1' else if d = 2 then '2'
  else if d = 3 then '3' else if d = 4 then '4' else if d = 5 then '5'
  else if d = 6 then '6' else if d = 7 then '7' else if d = 8 then '8' else '9'

theorem digitChar_toNat : ∀ d < 10, (digitChar d).toNat = 48 + d := by decide

/-- The decimal digit characters of a natural number, most significant
first, with explicit fuel (always called with fuel `n + 1`, which
`natDigitsAux_spec`-style lemmas below show is sufficient). -/
def natDigitsAux : Nat → Nat → List Char
  | 0, _ => []
  | fuel + 1, n =>
    if n < 10 then [digitChar n]
    else natDigitsAux fuel (n / 10) ++ [digitChar (n % 10)]

/-- Python `str()` of a non-negative integer. -/
def natStr (n : Nat) : String := ⟨natDigitsAux (n + 1) n⟩

/-- Python `str()` of an integer. -/
def intStr (i : ℤ) : String :=
  if i < 0 then "-" ++ natStr i.natAbs else natStr i.toNat

/-- Decimal re-parsing, a left inverse of `natStr` used to prove that the
reference ids `str(1), str(2), ...` issued by the reference table are
pairwise distinct. -/
def strNat (s : String) : Nat :=
  s.data.foldl (fun a c => 10 * a + (c.toNat - 48)) 0

theorem foldl_digits_append (xs : List Char) (c : Char) (a : Nat) :
    List.foldl (fun a c => 10 * a + (c.toNat - 48)) a (xs ++ [c])
      = 10 * (List.foldl (fun a c => 10 * a + (c.toNat - 48)) a xs) + (c.toNat - 48) := by
  simp [List.foldl_append]

theorem strNat_natDigitsAux (fuel : Nat) : ∀ n < fuel,
    List.foldl (fun a c => 10 * a + (c.toNat - 48)) 0 (natDigitsAux fuel n) = n := by
  induction fuel with
  | zero => omega
  | succ fuel ih =>
    intro n hn
    rw [natDigitsAux]
    by_cases h : n < 10
    · simp only [h, if_true, List.foldl]
      rw [digitChar_toNat n h]
      omega
    · simp only [h, if_false]
      rw [foldl_digits_append]
      have hdiv : n / 10 < n := Nat.div_lt_self (by omega) (by omega)
      rw [ih (n / 10) (by omega), digitChar_toNat (n % 10) (Nat.mod_lt _ (by omega))]
      omega

theorem strNat_natStr (n : Nat) : strNat (natStr n) = n :=
  strNat_natDigitsAux (n + 1) n (by omega)

theorem natStr_injective : Function.Injective natStr := by
  intro a b h
  have := strNat_natStr a
  rw [h, strNat_natStr b] at this
  omega

/-! ## Python exceptions -/

/-- One traceback frame: enough to reconstruct a readable stack entry. -/
structure Frame where
  funcName : String
  fileName : String
  lineNo : Nat
deriving DecidableEq, Repr

/-- A raised Python exception as caught by an `except` clause: exception type
name, message, and its traceback.  An exception caught by `except` always
carries at least one traceback frame, hence the `frame :: moreFrames` split. -/
structure PyErr where
  ename : String
  emsg : String
  frame : Frame
  moreFrames : List Frame
deriving DecidableEq, Repr

/-- The traceback frames of a caught exception, innermost first. -/
def errFrames (e : PyErr) : List Frame := e.frame :: e.moreFrames

/-- Python `repr(exception)`, e.g. `KeyError('x')`. -/
def pyRepr (e : PyErr) : String := e.ename ++ "('" ++ e.emsg ++ "')"

def keyError (k : String) (fr : Frame) : PyErr := ⟨"KeyError", k, fr, []⟩

def typeError (msg : String) (fr : Frame) : PyErr := ⟨"TypeError", msg, fr, []⟩

def attributeError (msg : String) (fr : Frame) : PyErr := ⟨"AttributeError", msg, fr, []⟩

def valueError (msg : String) (fr : Frame) : PyErr := ⟨"ValueError", msg, fr, []⟩

def indexError (msg : String) (fr : Frame) : PyErr := ⟨"IndexError", msg, fr, []⟩

def overflowError (msg : String) (fr : Frame) : PyErr := ⟨"OverflowError", msg, fr, []⟩

/-! ## Python builtins used by the codecs

`convert_argument_to_json` decides by-value vs by-reference transfer with
`hasattr(builtins, type(arg).__name__)`, and `convert_argument_from_json`
reconstructs values with `getattr(builtins, arg_type)(arg_value)`. -/

/-- Names bound in Python's `builtins` module (a finite excerpt sufficient for
this development; notably `NoneType` and `RemoteVar` are *not* among them,
while the non-primitive container/scalar types `dict`, `set`, `bytes`,
`complex`, ... are). -/
def builtinNames : List String :=
  ["bool", "int", "float", "str", "list", "tuple", "dict", "set", "frozenset",
   "bytes", "bytearray", "complex", "range", "object", "type", "id", "len",
   "print", "min", "max", "abs", "sum", "Exception", "ValueError", "TypeError",
   "KeyError", "AttributeError", "RuntimeError", "slice", "memoryview"]

/-- `hasattr(builtins, name)`. -/
def hasBuiltinAttr (name : String) : Bool := builtinNames.contains name

/-- Python truthiness, used by `bool(x)`. -/
def pyTruthy : Py → Bool
  | .none => false
  | .bool b => b
  | .int n => n != 0
  | .float .nan => true
  | .float (.infty _) => true
  | .float (.fin q) => q != 0
  | .str s => s ≠ ""
  | .list xs => !xs.isEmpty
  | .tuple xs => !xs.isEmpty
  | .dict kvs => !kvs.isEmpty
  | .remoteVar _ => true
  | .obj _ _ => true

/-- `str()` of a float.  Only the fact that distinct reference-table ids have
distinct `str()` forms matters to the claims; Python's shortest-roundtrip
decimal formatting of arbitrary finite doubles is abstracted. -/
def floatStr : PFloat → String
  | .nan => "nan"
  | .infty true => "-inf"
  | .infty false => "inf"
  | .fin q => if q.den = 1 then intStr q.num ++ ".0" else "<float " ++ intStr q.num ++ "/" ++ natStr q.den ++ ">"

/-- Python `str(x)`.  Exact for `None`/bools/ints/strings — the cases the
server's `str(arg_value)` key computation meets in the protocol; container
and object reprs are abstracted (no claim evaluates them). -/
def pyStr : Py → String
  | .none => "None"
  | .bool true => "True"
  | .bool false => "False"
  | .int n => intStr n
  | .float f => floatStr f
  | .str s => s
  | .list _ => "<list repr>"
  | .tuple _ => "<tuple repr>"
  | .dict _ => "<dict repr>"
  | .remoteVar _ => "<RemoteVar instance>"
  | .obj _ ty => "<" ++ ty ++ " instance>"

/-- Subscripting with a string key: `x["type"]`, `x["class"]`, ... .
Dicts look the key up (`KeyError` when absent); any other value raises a
`TypeError`, in particular lists (`list indices must be integers`). -/
def pyIndex (a : Py) (k : String) (fr : Frame) : Except PyErr Py :=
  match a with
  | .dict kvs =>
    match lookupStr kvs k with
    | some v => .ok v
    | Option.none => .error (keyError k fr)
  | .list _ => .error (typeError "list indices must be integers or slices, not str" fr)
  | .tuple _ => .error (typeError "tuple indices must be integers or slices, not str" fr)
  | .str _ => .error (typeError "string indices must be integers" fr)
  | _ => .error (typeError (typeName a ++ " object is not subscriptable") fr)

/-- Whether the first character list is an initial segment of the second. -/
def charsPrefixEq : List Char → List Char → Bool
  | [], _ => true
  | _ :: _, [] => false
  | a :: as, b :: bs => a == b && charsPrefixEq as bs

/-- Whether the first character list occurs contiguously in the second. -/
def charsContain : List Char → List Char → Bool
  | needle, [] => charsPrefixEq needle []
  | needle, c :: rest => charsPrefixEq needle (c :: rest) || charsContain needle rest

/-- Python's substring containment `needle in hay`. -/
def strContains (needle hay : String) : Bool := charsContain needle.data hay.data

/-- `key in x` (membership test).  Dicts test keys, lists/tuples test
elements, strings test substrings; other values raise `TypeError`. -/
def pyContains (a : Py) (k : String) (fr : Frame) : Except PyErr Bool :=
  match a with
  | .dict kvs => .ok (kvs.any fun p => p.1 = k)
  | .list xs => .ok (xs.any fun x => pyEq x (.str k))
  | .tuple xs => .ok (xs.any fun x => pyEq x (.str k))
  | .str s => .ok (strContains k s)
  | _ => .error (typeError ("argument of type '" ++ typeName a ++ "' is not iterable") fr)

/-- `x.get(key, default)` (only dicts have `.get`; anything else raises
`AttributeError`). -/
def pyGetD (a : Py) (k : String) (default : Py) (fr : Frame) : Except PyErr Py :=
  match a with
  | .dict kvs =>
    match lookupStr kvs k with
    | some v => .ok v
    | Option.none => .ok default
  | _ => .error (attributeError ("'" ++ typeName a ++ "' object has no attribute 'get'") fr)

/-- `int(x)`: identity on ints, `0`/`1` on bools, truncation toward zero on
finite floats; `ValueError`/`OverflowError` on NaN/infinities and unparsable
strings, `TypeError` elsewhere. -/
def pyIntOf (v : Py) (fr : Frame) : Except PyErr Py :=
  match v with
  | .bool b => .ok (.int (if b then 1 else 0))
  | .int n => .ok (.int n)
  | .float (.fin q) => .ok (.int (if 0 ≤ q then q.floor else -((-q).floor)))
  | .float .nan => .error (valueError "cannot convert float NaN to integer" fr)
  | .float (.infty _) => .error (overflowError "cannot convert float infinity to integer" fr)
  | .str s =>
    match s.toInt? with
    | some n => .ok (.int n)
    | Option.none => .error (valueError ("invalid literal for int() with base 10: '" ++ s ++ "'") fr)
  | _ => .error (typeError ("int() argument must be a string or a number, not '" ++ typeName v ++ "'") fr)

/-- `float(x)`: identity on floats, exact injection on bools/ints;
string parsing is not modelled (no claim exercises it), `TypeError`
elsewhere. -/
def pyFloatOf (v : Py) (fr : Frame) : Except PyErr Py :=
  match v with
  | .bool b => .ok (.float (.fin (if b then 1 else 0)))
  | .int n => .ok (.float (.fin (n : ℚ)))
  | .float f => .ok (.float f)
  | .str s => .error (valueError ("could not convert string to float: '" ++ s ++ "'") fr)
  | _ => .error (typeError ("float() argument must be a string or a number, not '" ++ typeName v ++ "'") fr)

/-- `list(x)`: copy of a list/tuple, characters of a string, keys of a dict;
`TypeError` on non-iterables. -/
def pyListOf (v : Py) (fr : Frame) : Except PyErr Py :=
  match v with
  | .list xs => .ok (.list xs)
  | .tuple xs => .ok (.list xs)
  | .str s => .ok (.list (s.data.map fun c => .str ⟨[c]⟩))
  | .dict kvs => .ok (.list (kvs.map fun p => .str p.1))
  | _ => .error (typeError ("'" ++ typeName v ++ "' object is not iterable") fr)

/-- `tuple(x)`. -/
def pyTupleOf (v : Py) (fr : Frame) : Except PyErr Py :=
  match pyListOf v fr with
  | .ok (.list xs) => .ok (.tuple xs)
  | .ok other => .ok other
  | .error e => .error e

/-- `dict(x)`: copy of a dict; a list/tuple of `[key, value]` pairs with
string keys; `TypeError` otherwise. -/
def pyDictOf (v : Py) (fr : Frame) : Except PyErr Py :=
  match v with
  | .dict kvs => .ok (.dict kvs)
  | .list xs =>
    let rec pairs : List Py → Except PyErr (List (String × Py))
      | [] => .ok []
      | .list [.str k, w] :: rest => (pairs rest).map fun ps => (k, w) :: ps
      | .tuple [.str k, w] :: rest => (pairs rest).map fun ps => (k, w) :: ps
      | _ => .error (typeError "cannot convert dictionary update sequence element" fr)
    (pairs xs).map Py.dict
  | _ => .error (typeError ("'" ++ typeName v ++ "' object is not iterable") fr)

/-- `getattr(builtins, name)(value)` — look a constructor up on the
`builtins` module by name and apply it.  An unknown name raises
`AttributeError` (`getattr` fails); builtins outside the supported primitive
constructors are left abstract as a `TypeError` (no claim exercises them). -/
def callBuiltin (name : String) (v : Py) (fr : Frame) : Except PyErr Py :=
  if name = "bool" then .ok (.bool (pyTruthy v))
  else if name = "int" then pyIntOf v fr
  else if name = "float" then pyFloatOf v fr
  else if name = "str" then .ok (.str (pyStr v))
  else if name = "list" then pyListOf v fr
  else if name = "tuple" then pyTupleOf v fr
  else if name = "dict" then pyDictOf v fr
  else if hasBuiltinAttr name then
    .error (typeError ("builtin '" ++ name ++ "' call not modelled") fr)
  else
    .error (attributeError ("module 'builtins' has no attribute '" ++ name ++ "'") fr)

/-! ## The server (`src/interface_proxy/server.py`) -/

/-- A member of a served object: a plain (non-callable) attribute value, or a
callable (function / bound method) taking positional and keyword arguments
and either returning a value or raising.  `callable(x)` is the constructor
test. -/
inductive Attr where
  | val (v : Py)
  | func (f : List Py → List (String × Py) → Except PyErr Py)

/-- Lookup in a string-keyed association list of members. -/
def lookupAttr : List (String × Attr) → String → Option Attr
  | [], _ => Option.none
  | (k, v) :: rest, key => if k = key then some v else lookupAttr rest key

/-- The state of the `Server` instance: the served objects
(`_target_classes`, a name-keyed dict populated at startup), the reference
table (`_local_variables`, most recent binding first) and its counter
(`_local_variable_count`). -/
structure ServerState where
  targetClasses : List (String × List (String × Attr))
  localVariables : List (String × Py)
  localVariableCount : Nat

/-- Source locations used for the traceback frames of exceptions this
embedding raises itself. -/
def frFromJson : Frame := ⟨"convert_argument_from_json", "server.py", 66⟩

def frToJson : Frame := ⟨"convert_argument_to_json", "server.py", 90⟩

def frRunCommand : Frame := ⟨"run_command", "server.py", 112⟩

def frGetAttribute : Frame := ⟨"get_attribute", "server.py", 141⟩

/-- Lines 89–92 of `convert_argument_to_json`: bump `_local_variable_count`,
insert the object under `str(count)`, and use that string as the reference. -/
def store (st : ServerState) (arg : Py) : String × ServerState :=
  let newCount := st.localVariableCount + 1
  (natStr newCount,
   { st with
     localVariableCount := newCount,
     localVariables := (natStr newCount, arg) :: st.localVariables })

/-- `self._local_variables[str(arg_value)]` — reference-table resolution;
an unknown id raises `KeyError`. -/
def resolve (st : ServerState) (argValue : Py) : Except PyErr Py :=
  match lookupStr st.localVariables (pyStr argValue) with
  | some v => .ok v
  | Option.none => .error (keyError (pyStr argValue) frFromJson)

mutual

/-- `Server.convert_argument_to_json`: lists and tuples are decomposed
element-wise; a value whose type name is not found on `builtins` (and is not
`NoneType`) is stored in the reference table and replaced by a `RemoteVar`
tag carrying the fresh reference id; everything else is emitted by value as
`{"type": type-name, "value": value}`. -/
def convert_argument_to_json (st : ServerState) : Py → Py × ServerState
  | .list xs =>
    let (ys, st') := convertListToJson st xs
    (.list ys, st')
  | .tuple xs =>
    let (ys, st') := convertListToJson st xs
    (.list ys, st')
  | arg =>
    let argType := typeName arg
    if !hasBuiltinAttr argType && argType != "NoneType" then
      let (ref, st') := store st arg
      (.dict [("type", .str "RemoteVar"), ("value", .str ref)], st')
    else
      (.dict [("type", .str argType), ("value", arg)], st)

def convertListToJson (st : ServerState) : List Py → List Py × ServerState
  | [] => ([], st)
  | x :: xs =>
    let (y, st') := convert_argument_to_json st x
    let (ys, st'') := convertListToJson st' xs
    (y :: ys, st'')

end

mutual

/-- `Server.convert_argument_from_json`: a (JSON-loaded) list is converted
element-wise; otherwise `arg["type"]`/`arg["value"]` are read, a `RemoteVar`
tag is resolved through the reference table, `NoneType` yields `None`, and
any other tag is applied as `getattr(builtins, arg_type)(arg_value)`. -/
def convert_argument_from_json (st : ServerState) : Py → Except PyErr Py
  | .list xs =>
    match convertListFromJson st xs with
    | .ok ys => .ok (.list ys)
    | .error e => .error e
  | arg =>
    match pyIndex arg "type" frFromJson with
    | .error e => .error e
    | .ok argType =>
      match pyIndex arg "value" frFromJson with
      | .error e => .error e
      | .ok argValue =>
        if pyEq argType (.str "RemoteVar") then resolve st argValue
        else if pyEq argType (.str "NoneType") then .ok .none
        else
          match argType with
          | .str t => callBuiltin t argValue frFromJson
          | other => .error (typeError ("attribute name must be string, not '" ++ typeName other ++ "'") frFromJson)

def convertListFromJson (st : ServerState) : List Py → Except PyErr (List Py)
  | [] => .ok []
  | x :: xs =>
    match convert_argument_from_json st x with
    | .error e => .error e
    | .ok y =>
      match convertListFromJson st xs with
      | .error e => .error e
      | .ok ys => .ok (y :: ys)

end

/-- `Server.return_target`: `self._target_classes[target_class]`. -/
def return_target (st : ServerState) (targetClass : Py) (fr : Frame) :
    Except PyErr (List (String × Attr)) :=
  match targetClass with
  | .str s =>
    match st.targetClasses.lookup s with
    | some t => .ok t
    | Option.none => .error (keyError s fr)
  | .list _ => .error (typeError "unhashable type: 'list'" fr)
  | .dict _ => .error (typeError "unhashable type: 'dict'" fr)
  | other => .error (keyError (pyStr other) fr)

/-- `getattr(target, name)` on a served object. -/
def getattrTarget (t : List (String × Attr)) (name : Py) (fr : Frame) :
    Except PyErr Attr :=
  match name with
  | .str s =>
    match lookupAttr t s with
    | some a => .ok a
    | Option.none => .error (attributeError ("object has no attribute '" ++ s ++ "'") fr)
  | _ => .error (typeError "attribute name must be string" fr)

/-- `target_function(*args, **kwargs)`: calling a non-callable attribute
raises `TypeError`. -/
def callAttr (a : Attr) (args : List Py) (kwargs : List (String × Py)) (fr : Frame) :
    Except PyErr Py :=
  match a with
  | .func f => f args kwargs
  | .val v => .error (typeError ("'" ++ typeName v ++ "' object is not callable") fr)

/-- Iteration `for x in v` (used for the `args` list of a command). -/
def pyIterate (v : Py) (fr : Frame) : Except PyErr (List Py) :=
  match v with
  | .list xs => .ok xs
  | .tuple xs => .ok xs
  | .str s => .ok (s.data.map fun c => .str ⟨[c]⟩)
  | .dict kvs => .ok (kvs.map fun p => .str p.1)
  | _ => .error (typeError ("'" ++ typeName v ++ "' object is not iterable") fr)

/-- `v.items()` (used for the `kwargs` mapping of a command). -/
def pyItems (v : Py) (fr : Frame) : Except PyErr (List (String × Py)) :=
  match v with
  | .dict kvs => .ok kvs
  | _ => .error (attributeError ("'" ++ typeName v ++ "' object has no attribute 'items'") fr)

/-- `{"status": "success", "return": ret}`. -/
def respSuccess (ret : Py) : Py := .dict [("status", .str "success"), ("return", ret)]

/-- `Server.get_attribute` on the JSON-loaded command: read the attribute
named by the command on the named target; answer with the `callable` sentinel
if it is callable, otherwise convert its value (possibly storing references)
and answer with it. -/
def get_attribute (st : ServerState) (cmd : Py) : Except PyErr (Py × ServerState) := do
  let targetClass ← pyIndex cmd "class" frGetAttribute
  let attributeName ← pyIndex cmd "attribute" frGetAttribute
  let target ← return_target st targetClass frGetAttribute
  let targetAttribute ← getattrTarget target attributeName frGetAttribute
  match targetAttribute with
  | .func _ => .ok (respSuccess (.dict [("type", .str "callable"), ("value", .none)]), st)
  | .val v =>
    let (ret, st') := convert_argument_to_json st v
    .ok (respSuccess ret, st')

/-- The kwargs dict comprehension of `run_command`:
`{k: self.convert_argument_from_json(v) for k, v in kwargs_raw.items()}`. -/
def decodeKwargs (st : ServerState) : List (String × Py) → Except PyErr (List (String × Py))
  | [] => .ok []
  | (k, v) :: rest =>
    match convert_argument_from_json st v with
    | .error e => .error e
    | .ok w =>
      match decodeKwargs st rest with
      | .error e => .error e
      | .ok ws => .ok ((k, w) :: ws)

/-- `Server.run_command` on the JSON-loaded command: dispatch to
`get_attribute` when no `function` key is present; otherwise decode the
arguments, invoke the named member on the named target, convert the result
and wrap it in a success response. -/
def run_command (st : ServerState) (cmd : Py) : Except PyErr (Py × ServerState) := do
  let hasFunction ← pyContains cmd "function" frRunCommand
  if !hasFunction then get_attribute st cmd
  else do
    let targetClass ← pyIndex cmd "class" frRunCommand
    let function ← pyIndex cmd "function" frRunCommand
    let argsRaw ← pyGetD cmd "args" (.list []) frRunCommand
    let argElems ← pyIterate argsRaw frRunCommand
    let args ← convertListFromJson st argElems
    let kwargsRaw ← pyGetD cmd "kwargs" (.dict []) frRunCommand
    let kwItems ← pyItems kwargsRaw frRunCommand
    let kwargs ← decodeKwargs st kwItems
    let target ← return_target st targetClass frRunCommand
    let targetFunction ← getattrTarget target function frRunCommand
    let result ← callAttr targetFunction args kwargs frRunCommand
    let (ret, st') := convert_argument_to_json st result
    .ok (respSuccess ret, st')

/-! ## Traceback serialization (`tblib`)

`handle_request` ships `Traceback(tb).to_dict()`; the client rebuilds the
traceback with `Traceback.from_dict(...)`.  The dict layout is abstracted as
a JSON list of frame records; `from_dict` is its inverse. -/

/-- `Traceback(tb).to_dict()`. -/
def tracebackToDict (frames : List Frame) : Py :=
  .list (frames.map fun f =>
    .dict [("funcname", .str f.funcName), ("filename", .str f.fileName),
           ("lineno", .int (f.lineNo : ℤ))])

/-- Decoding of one serialized traceback frame. -/
def decodeFrame (x : Py) : Except PyErr Frame :=
  match x with
  | .dict [("funcname", .str fn), ("filename", .str fi), ("lineno", .int l)] =>
    .ok (⟨fn, fi, l.toNat⟩ : Frame)
  | _ => .error (typeError "malformed traceback dict" ⟨"from_dict", "tblib", 0⟩)

def decodeFrames : List Py → Except PyErr (List Frame)
  | [] => .ok []
  | x :: xs =>
    match decodeFrame x with
    | .error e => .error e
    | .ok f =>
      match decodeFrames xs with
      | .error e => .error e
      | .ok fs => .ok (f :: fs)

/-- `Traceback.from_dict(...)`: rebuild the frames, failing on data not
produced by `to_dict`. -/
def tracebackFromDict (p : Py) : Except PyErr (List Frame) :=
  match p with
  | .list xs => decodeFrames xs
  | _ => .error (typeError "malformed traceback dict" ⟨"from_dict", "tblib", 0⟩)

/-- The exception response body built by `handle_request`'s `except` branch:
`{"status": "exception", "message": repr(ev), "traceback": tb}`. -/
def respException (e : PyErr) : Py :=
  .dict [("status", .str "exception"), ("message", .str (pyRepr e)),
         ("traceback", tracebackToDict (errFrames e))]

/-! ## `handle_request` and the serving loop -/

/-- One inbound request, after the transport and `json.loads` stage:
an empty line (a bare pipe connect), a line whose UTF-8 decoding or JSON
parsing raised, or a successfully loaded command structure. -/
inductive Request where
  | empty
  | loadFailure (e : PyErr)
  | command (cmd : Py)

/-- The server's reply to one loaded command: `run_command`'s response on
success, and the exception response for any raised exception (the `except`
branch leaves the server state as `run_command` left it; `run_command` only
mutates state in its final conversion step, so the pre-call state is kept on
failure). -/
def serverResponse (st : ServerState) (cmd : Py) : Py × ServerState :=
  match run_command st cmd with
  | .ok (resp, st') => (resp, st')
  | .error e => (respException e, st)

/-- `handle_request`: nothing is written for an empty line; any exception
raised while decoding, parsing, or running the command is caught and turned
into an exception response.  Total by construction — the handler never
propagates an exception. -/
def handle_request (st : ServerState) (req : Request) : Option Py × ServerState :=
  match req with
  | .empty => (Option.none, st)
  | .loadFailure e => (some (respException e), st)
  | .command cmd =>
    let (resp, st') := serverResponse st cmd
    (some resp, st')

/-- The serving loop: handle each inbound request in turn, threading the
server state; the process keeps serving after exception responses. -/
def serve (st : ServerState) : List Request → List (Option Py) × ServerState
  | [] => ([], st)
  | req :: reqs =>
    let (o, st') := handle_request st req
    let (os, st'') := serve st' reqs
    (o :: os, st'')

/-! ## The client (`src/interface_proxy/client.py`) -/

/-- An exception escaping a client-side call: either the `RemoteError`
re-raised by `unpack_result` (carrying the reconstructed traceback), or an
ordinary local Python exception (`RuntimeError`, `KeyError`, `TypeError`,
...). -/
inductive ClientErr where
  | remote (msg : String) (trace : List Frame)
  | localErr (e : PyErr)
deriving DecidableEq, Repr

def frUnpack : Frame := ⟨"unpack_result", "client.py", 317⟩

def frGetattr : Frame := ⟨"__getattr__", "client.py", 373⟩

def frHandleCall : Frame := ⟨"handle_call", "client.py", 362⟩

/-- `RuntimeError("Error decoding the response from the server")`. -/
def runtimeDecodeError : PyErr :=
  ⟨"RuntimeError", "Error decoding the response from the server", frUnpack, []⟩

/-- `Proxy.unpack_result` on the JSON-loaded response: return it whole when
`status` is `success`; re-raise a server-side failure as a `RemoteError`
whose message embeds the server's message and whose traceback is rebuilt
from the shipped dict; raise a local `RuntimeError` for a missing or
unrecognized status. -/
def unpack_result (response : Py) : Except ClientErr Py :=
  match pyGetD response "status" (.str "invalid") frUnpack with
  | .error e => .error (.localErr e)
  | .ok status =>
    if pyEq status (.str "success") then .ok response
    else if pyEq status (.str "exception") then
      match pyIndex response "message" frUnpack with
      | .error e => .error (.localErr e)
      | .ok message =>
        match pyIndex response "traceback" frUnpack with
        | .error e => .error (.localErr e)
        | .ok tbDict =>
          match tracebackFromDict tbDict with
          | .error e => .error (.localErr e)
          | .ok frames =>
            .error (.remote ("Server-side processing failed with " ++ pyStr message) frames)
    else .error (.localErr runtimeDecodeError)

mutual

/-- `Proxy._convert_argument_from_json`: like the server's decoder, except a
`RemoteVar` tag constructs a client-side `RemoteVar` wrapper instance
holding the payload instead of resolving it. -/
def client_convert_argument_from_json : Py → Except PyErr Py
  | .list xs =>
    match clientConvertListFromJson xs with
    | .ok ys => .ok (.list ys)
    | .error e => .error e
  | arg =>
    match pyIndex arg "type" frGetattr with
    | .error e => .error e
    | .ok argType =>
      match pyIndex arg "value" frGetattr with
      | .error e => .error e
      | .ok argValue =>
        if pyEq argType (.str "RemoteVar") then .ok (.remoteVar argValue)
        else if pyEq argType (.str "NoneType") then .ok .none
        else
          match argType with
          | .str t => callBuiltin t argValue frGetattr
          | other => .error (typeError ("attribute name must be string, not '" ++ typeName other ++ "'") frGetattr)

def clientConvertListFromJson : List Py → Except PyErr (List Py)
  | [] => .ok []
  | x :: xs =>
    match client_convert_argument_from_json x with
    | .error e => .error e
    | .ok y =>
      match clientConvertListFromJson xs with
      | .error e => .error e
      | .ok ys => .ok (y :: ys)

end

mutual

/-- `Proxy._convert_argument_to_json`: lists/tuples element-wise; a
`RemoteVar` wrapper is unwrapped to its `variable_reference_name`; every
other value is emitted by value under its type name. -/
def client_convert_argument_to_json : Py → Py
  | .list xs => .list (clientConvertListToJson xs)
  | .tuple xs => .list (clientConvertListToJson xs)
  | .remoteVar r => .dict [("type", .str "RemoteVar"), ("value", r)]
  | arg => .dict [("type", .str (typeName arg)), ("value", arg)]

def clientConvertListToJson : List Py → List Py
  | [] => []
  | x :: xs => client_convert_argument_to_json x :: clientConvertListToJson xs

end

/-- The probe command `{"class": target, "attribute": name}`. -/
def attributeCommand (targetClass functionName : String) : Py :=
  .dict [("class", .str targetClass), ("attribute", .str functionName)]

/-- The invocation command built by `handle_call`. -/
def functionCommand (targetClass functionName : String)
    (args : List Py) (kwargs : List (String × Py)) : Py :=
  .dict [("class", .str targetClass), ("function", .str functionName),
         ("args", .list (args.map client_convert_argument_to_json)),
         ("kwargs", .dict (kwargs.map fun p => (p.1, client_convert_argument_to_json p.2)))]

/-- What an access `proxy.<name>` evaluates to: `None` for underscore
members, a decoded value, the `handle_call` invoker for callables, or a
raised exception. -/
inductive GetattrResult where
  | pyNone
  | value (v : Py)
  | invoker
  | raised (e : ClientErr)

/-- `Proxy.__getattr__` composed with the transport and server
(`_send_to_server` delivers the command dict to `handle_request` and brings
the response dict back).  Returns the access outcome, the list of commands
sent on the wire, and the server state afterwards. -/
def proxyGetattr (st : ServerState) (targetClass functionName : String) :
    GetattrResult × List Py × ServerState :=
  if functionName.data = [] then
    (.raised (.localErr (indexError "string index out of range" frGetattr)), [], st)
  else if functionName.front = '_' then (.pyNone, [], st)
  else
    match serverResponse st (attributeCommand targetClass functionName) with
    | (result, st') =>
      match unpack_result result with
      | .error e => (.raised e, [attributeCommand targetClass functionName], st')
      | .ok resultJson =>
        match pyIndex resultJson "return" frGetattr with
        | .error e => (.raised (.localErr e), [attributeCommand targetClass functionName], st')
        | .ok ret =>
          match pyIndex ret "type" frGetattr with
          | .error e => (.raised (.localErr e), [attributeCommand targetClass functionName], st')
          | .ok ty =>
            if pyEq ty (.str "callable") then
              (.invoker, [attributeCommand targetClass functionName], st')
            else
              match client_convert_argument_from_json ret with
              | .ok v => (.value v, [attributeCommand targetClass functionName], st')
              | .error e => (.raised (.localErr e), [attributeCommand targetClass functionName], st')

/-- `handle_call` (the invoker returned for callable members) composed with
the transport and server: encode the arguments, send the function command,
unpack the response, decode the returned value. -/
def proxyCall (st : ServerState) (targetClass functionName : String)
    (args : List Py) (kwargs : List (String × Py)) :
    Except ClientErr Py × List Py × ServerState :=
  match serverResponse st (functionCommand targetClass functionName args kwargs) with
  | (result, st') =>
    match unpack_result result with
    | .error e => (.error e, [functionCommand targetClass functionName args kwargs], st')
    | .ok resultJson =>
      match pyIndex resultJson "return" frHandleCall with
      | .error e => (.error (.localErr e), [functionCommand targetClass functionName args kwargs], st')
      | .ok ret =>
        match client_convert_argument_from_json ret with
        | .ok v => (.ok v, [functionCommand targetClass functionName args kwargs], st')
        | .error e => (.error (.localErr e), [functionCommand targetClass functionName args kwargs], st')

/-! ## The named-pipe transport (`PipeProxy._send_to_server_binary`) -/

/-- `winerror.ERROR_FILE_NOT_FOUND`. -/
def ERROR_FILE_NOT_FOUND : ℤ := 2

/-- `PipeProxy.MAX_TIMEOUT`. -/
def MAX_TIMEOUT : ℚ := 2

/-- What one `win32pipe.CallNamedPipe` attempt does: deliver a reply, or
raise `pywintypes.error` with the given `winerror` code. -/
inductive PipeAttempt where
  | ok (resp : String)
  | err (winerror : ℤ)
deriving DecidableEq, Repr

/-- The result of `_send_to_server_binary`: a reply (with the total time
slept until then), a propagated `pywintypes.error`, or fuel exhaustion —
`pipeSendLoop_no_fuelOut` below shows the last is unreachable for the fuel
the entry point supplies, so the fuel is an artifact of the encoding, not a
behavior. -/
inductive PipeOutcome where
  | ok (resp : String) (slept : ℚ)
  | raised (winerror : ℤ) (slept : ℚ)
  | fuelOut
deriving DecidableEq, Repr

/-- The retry loop of `_send_to_server_binary`.  `env k` is the outcome of
the `k`-th `CallNamedPipe` attempt; `delay` is the current backoff delay and
`slept` the total time slept so far.  A `pywintypes.error` whose code is not
`ERROR_FILE_NOT_FOUND` is re-raised at once; otherwise the loop re-raises
when the *current delay* exceeds `MAX_TIMEOUT`, else sleeps `delay`,
multiplies it by 1.5 and retries. -/
def pipeSendLoop (env : Nat → PipeAttempt) : Nat → Nat → ℚ → ℚ → PipeOutcome
  | 0, _, _, _ => .fuelOut
  | fuel + 1, k, delay, slept =>
    match env k with
    | .ok resp => .ok resp slept
    | .err code =>
      if code ≠ ERROR_FILE_NOT_FOUND then .raised code slept
      else if delay > MAX_TIMEOUT then .raised code slept
      else pipeSendLoop env fuel (k + 1) (delay * (3/2)) (slept + delay)

/-- `PipeProxy._send_to_server_binary`: the loop entered with
`delay = 0.03`. -/
def pipe_send_to_server_binary (env : Nat → PipeAttempt) : PipeOutcome :=
  pipeSendLoop env 64 0 (3/100) 0

/-! ## The process supervisor (`RunServer`) -/

/-- A value passed to `RunServer` as the `caller`: a Python object with its
`id()`, and — when the object is an `int` — the integer's value. -/
structure Caller where
  oid : Nat
  intValue : Option ℤ
deriving DecidableEq, Repr

/-- `isinstance(caller, object)`: in Python every value, integers included,
is an instance of `object`, so this is constantly true. -/
def isinstance_object (_ : Caller) : Bool := true

/-- `RunServer.get_id`: `id(caller)` when the caller is an object (always),
the integer itself otherwise (never). -/
def get_id (caller : Caller) : ℤ :=
  if isinstance_object caller then (caller.oid : ℤ) else caller.intValue.getD 0

/-- Whether an OS process is running or has exited (crashed or
terminated). -/
inductive ProcStatus where
  | running
  | exited
deriving DecidableEq, Repr

/-- One `RunServer` instance's attributes: the recorded exe / py paths, the
`Popen`ed process (by pid), and the holder set `_references` (a duplicate-free
list of `get_id` values). -/
structure Sup where
  server_exe : Option String := Option.none
  server_py : Option String := Option.none
  process : Option Nat := Option.none
  references : List ℤ := []
deriving DecidableEq, Repr

/-- The world the supervisor acts on: the per-path singleton registry
`RunServer._instances`, each instance's state, the OS process table, and the
environment (`Path.is_file` and whether `sys.executable` is a python
interpreter).  `spawnCount` counts `subprocess.Popen` calls. -/
structure World where
  instances : List (String × Nat) := []
  sups : List (Nat × Sup) := []
  nextInstId : Nat := 0
  procs : List (Nat × ProcStatus) := []
  nextPid : Nat := 0
  spawnCount : Nat := 0
  fileExists : String → Bool := fun _ => false
  pythonInterp : Bool := true

/-- Lookup in the `_instances` registry. -/
def lookupInst : List (String × Nat) → String → Option Nat
  | [], _ => Option.none
  | (k, v) :: rest, key => if k = key then some v else lookupInst rest key

/-- Lookup of an instance's state. -/
def lookupSup : List (Nat × Sup) → Nat → Option Sup
  | [], _ => Option.none
  | (k, v) :: rest, key => if k = key then some v else lookupSup rest key

/-- Status of a pid in the process table (a pid the table does not know is
treated as exited). -/
def procStatus : List (Nat × ProcStatus) → Nat → ProcStatus
  | [], _ => .exited
  | (k, v) :: rest, key => if k = key then v else procStatus rest key

/-- Store an instance's state (most recent binding first). -/
def setSup (w : World) (i : Nat) (s : Sup) : World :=
  { w with sups := (i, s) :: w.sups }

/-- Mark a pid exited (used both by `terminate()` and by a crash). -/
def setProcExited (w : World) (pid : Nat) : World :=
  { w with procs := (pid, .exited) :: w.procs }

/-- `self._process.poll() is None`: the process exists and is running. -/
def pollIsNone (w : World) (s : Sup) : Bool :=
  match s.process with
  | some pid => procStatus w.procs pid = .running
  | Option.none => false

/-- `str(path)`, where the path may be `None` (`str(None) = "None"`; the
code looks registry keys up with it but never registers under it, because
registration is guarded by truthiness). -/
def strOpt : Option String → String
  | Option.none => "None"
  | some s => s

/-- `RunServer.terminate_server`: only when a process exists *and* is still
running are the holder set cleared and the process terminated; otherwise
(never started, or already exited) nothing happens at all. -/
def terminate_server (w : World) (s : Sup) : World × Sup :=
  if s.process.isSome && pollIsNone w s then
    (setProcExited w (s.process.getD 0), { s with references := [] })
  else (w, s)

/-- `subprocess.Popen`: create a fresh running process. -/
def spawn (w : World) : World × Nat :=
  let pid := w.nextPid
  ({ w with
     procs := (pid, .running) :: w.procs,
     nextPid := pid + 1,
     spawnCount := w.spawnCount + 1 }, pid)

/-- `RunServer.run_server`: terminate any still-running previous process,
then prefer the exe if it is an existing file; fall back to the py script run
by the current interpreter; raise `FileNotFoundError` when neither is
available. -/
def run_server (w : World) (s : Sup) : Except PyErr (World × Sup) :=
  let (w, s) := terminate_server w s
  if (match s.server_exe with | some p => w.fileExists p | Option.none => false) then
    let (w, pid) := spawn w
    .ok (w, { s with process := some pid })
  else if !w.pythonInterp then
    .error (⟨"FileNotFoundError", "Could not find the server to run (no interpreter)",
      ⟨"run_server", "client.py", 209⟩, []⟩ : PyErr)
  else if (match s.server_py with | some p => w.fileExists p | Option.none => false) then
    let (w, pid) := spawn w
    .ok (w, { s with process := some pid })
  else
    .error (⟨"FileNotFoundError", "Could not find the server to run",
      ⟨"run_server", "client.py", 217⟩, []⟩ : PyErr)

/-- `RunServer.__new__`: per-path singleton lookup — reuse the instance
registered under `str(server_exe)` or `str(server_py)` if any, else allocate
a fresh one with an empty holder set; raise `ValueError` when the exe and py
keys resolve to different instances; then register the instance under each
truthy path. -/
def runServerNew (w : World) (server_exe server_py : Option String) :
    Except PyErr (World × Nat) :=
  let keyE := strOpt server_exe
  let keyP := strOpt server_py
  let (w1, objId) :=
    match (lookupInst w.instances keyE).orElse (fun _ => lookupInst w.instances keyP) with
    | some i => (w, i)
    | Option.none =>
      let i := w.nextInstId
      (setSup { w with nextInstId := i + 1 } i { references := [] }, i)
  if (lookupInst w1.instances keyE).getD objId ≠ (lookupInst w1.instances keyP).getD objId then
    .error (⟨"ValueError", "Mismatch between exe and py version.",
      ⟨"__new__", "client.py", 85⟩, []⟩ : PyErr)
  else
    let w2 := if server_exe.isSome then { w1 with instances := (keyE, objId) :: w1.instances } else w1
    let w3 := if server_py.isSome then { w2 with instances := (keyP, objId) :: w2.instances } else w2
    .ok (w3, objId)

/-- `RunServer.check_server_path`: the recorded path may only be repeated,
never changed. -/
def check_server_path (previous newPath : Option String) : Except PyErr Unit :=
  match previous, newPath with
  | some p, some n =>
    if p ≠ n then
      .error (⟨"ValueError", "One instance can only manage a single server.",
        ⟨"check_server_path", "client.py", 149⟩, []⟩ : PyErr)
    else .ok ()
  | _, _ => .ok ()

/-- Add a holder id to the `_references` set. -/
def addRef (refs : List ℤ) (i : ℤ) : List ℤ :=
  if i ∈ refs then refs else i :: refs

/-- `RunServer.__init__`: validate the paths, record them, relaunch via
`run_server` when no process is recorded or the recorded one has exited, and
add `get_id(caller)` to the holder set. -/
def runServerInit (w : World) (objId : Nat) (caller : Caller)
    (server_exe server_py : Option String) : Except PyErr World := do
  let s := (lookupSup w.sups objId).getD {}
  let _ ← check_server_path s.server_exe server_exe
  let _ ← check_server_path s.server_py server_py
  let s := if server_exe.isSome then { s with server_exe := server_exe } else s
  let s := if server_py.isSome then { s with server_py := server_py } else s
  let (w, s) ←
    if !pollIsNone w s then
      match run_server w s with
      | .ok ws => pure ws
      | .error e => throw e
    else pure (w, s)
  let s := { s with references := addRef s.references (get_id caller) }
  pure (setSup w objId s)

/-- Constructing `RunServer(caller, exe, py)` runs `__new__` then
`__init__`. -/
def acquire (w : World) (caller : Caller) (server_exe server_py : Option String) :
    Except PyErr (World × Nat) := do
  let (w, objId) ← runServerNew w server_exe server_py
  let w ← runServerInit w objId caller server_exe server_py
  pure (w, objId)

/-- `RunServer.release`: drop `get_id(caller)` from the holder set
(`KeyError` suppressed — removing an absent id is a no-op) and terminate the
process when the set became empty. -/
def release (w : World) (objId : Nat) (caller : Caller) : World :=
  match lookupSup w.sups objId with
  | Option.none => w
  | some s =>
    let s := { s with references := s.references.erase (get_id caller) }
    if s.references.isEmpty then
      let (w, s) := terminate_server w s
      setSup w objId s
    else setSup w objId s

/-- An external event: the server process crashes. -/
def crash (w : World) (pid : Nat) : World := setProcExited w pid

/-- The holder set recorded for instance `i`. -/
def refsOf (w : World) (i : Nat) : List ℤ :=
  match lookupSup w.sups i with
  | some s => s.references
  | Option.none => []

/-! # Theorems -/

/-- A freshly initialized server with no served objects and an empty
reference table. -/
def ex0 : ServerState := ⟨[], [], 0⟩

/-! ## C6 — the reference table -/

/-- The keys a table with counter `n` holds: `str(n), ..., str(1)` (most
recent first). -/
def tableKeys : Nat → List String
  | 0 => []
  | n + 1 => natStr (n + 1) :: tableKeys n

/-- Well-formedness of the reference table: every id `str(1) ... str(count)`
was issued once, most recent first.  Holds initially and is preserved by
`store`. -/
def wfTable (st : ServerState) : Prop :=
  st.localVariables.map Prod.fst = tableKeys st.localVariableCount

theorem mem_tableKeys {n : Nat} {s : String} :
    s ∈ tableKeys n ↔ ∃ i, 1 ≤ i ∧ i ≤ n ∧ s = natStr i := by
  induction n with
  | zero =>
    simp only [tableKeys, List.not_mem_nil, false_iff]
    rintro ⟨i, h1, h2, _⟩
    omega
  | succ n ih =>
    simp only [tableKeys, List.mem_cons, ih]
    constructor
    · rintro (rfl | ⟨i, h1, h2, rfl⟩)
      · exact ⟨n + 1, by omega, by omega, rfl⟩
      · exact ⟨i, h1, by omega, rfl⟩
    · rintro ⟨i, h1, h2, rfl⟩
      rcases Nat.lt_or_ge i (n + 1) with h | h
      · exact Or.inr ⟨i, h1, by omega, rfl⟩
      · exact Or.inl (by rw [show i = n + 1 by omega])

theorem natStr_succ_not_mem_tableKeys {n : Nat} {j : Nat} (hj : n < j) :
    natStr j ∉ tableKeys n := by
  rw [mem_tableKeys]
  rintro ⟨i, h1, h2, hs⟩
  have := natStr_injective hs
  omega

theorem lookupStr_eq_none {kvs : List (String × Py)} {k : String}
    (h : k ∉ kvs.map Prod.fst) : lookupStr kvs k = Option.none := by
  induction kvs with
  | nil => rfl
  | cons hd tl ih =>
    simp only [List.map_cons, List.mem_cons] at h
    push_neg at h
    rw [show lookupStr (hd :: tl) k = if hd.1 = k then some hd.2 else lookupStr tl k from rfl]
    rw [if_neg (fun hk => h.1 hk.symm), ih h.2]

theorem lookupStr_mem_of_some {kvs : List (String × Py)} {k : String} {w : Py}
    (h : lookupStr kvs k = some w) : k ∈ kvs.map Prod.fst := by
  induction kvs with
  | nil => exact absurd h (by simp [lookupStr])
  | cons hd tl ih =>
    rw [show lookupStr (hd :: tl) k = if hd.1 = k then some hd.2 else lookupStr tl k from rfl] at h
    by_cases hh : hd.1 = k
    · simp [hh]
    · rw [if_neg hh] at h
      simp [ih h]

/-- C6: every store assigns the next counter value (so the counter is
strictly increasing and the issued id — returned in string form — is fresh:
no existing entry is overwritten and all previously issued bindings are
preserved); resolving an issued id returns the identical object stored under
it; resolving an id that was never issued (any `str(j)` with `j` above the
counter, in particular) raises a `KeyError`. -/
theorem referenceTable_store_resolve (st : ServerState) (v : Py) (hwf : wfTable st) :
    (store st v).1 = natStr (st.localVariableCount + 1)
  ∧ (store st v).2.localVariableCount = st.localVariableCount + 1
  ∧ lookupStr st.localVariables (store st v).1 = Option.none
  ∧ resolve (store st v).2 (.str (store st v).1) = .ok v
  ∧ (∀ k w, lookupStr st.localVariables k = some w →
       lookupStr (store st v).2.localVariables k = some w)
  ∧ wfTable (store st v).2
  ∧ (∀ j, st.localVariableCount < j →
       resolve st (.str (natStr j)) = .error (keyError (natStr j) frFromJson)) := by
  have hfresh : natStr (st.localVariableCount + 1) ∉ st.localVariables.map Prod.fst := by
    rw [hwf]
    exact natStr_succ_not_mem_tableKeys (by omega)
  refine ⟨rfl, rfl, lookupStr_eq_none hfresh, ?_, ?_, ?_, ?_⟩
  · show resolve (store st v).2 (.str (natStr (st.localVariableCount + 1))) = .ok v
    rw [show resolve (store st v).2 (.str (natStr (st.localVariableCount + 1)))
        = (match lookupStr ((natStr (st.localVariableCount + 1), v) :: st.localVariables)
             (natStr (st.localVariableCount + 1)) with
           | some w => Except.ok w
           | Option.none => Except.error (keyError (natStr (st.localVariableCount + 1)) frFromJson)) from rfl]
    rw [show lookupStr ((natStr (st.localVariableCount + 1), v) :: st.localVariables)
          (natStr (st.localVariableCount + 1))
        = if natStr (st.localVariableCount + 1) = natStr (st.localVariableCount + 1)
          then some v else lookupStr st.localVariables (natStr (st.localVariableCount + 1)) from rfl]
    rw [if_pos rfl]
  · intro k w hk
    show lookupStr ((natStr (st.localVariableCount + 1), v) :: st.localVariables) k = some w
    rw [show lookupStr ((natStr (st.localVariableCount + 1), v) :: st.localVariables) k
        = if natStr (st.localVariableCount + 1) = k then some v
          else lookupStr st.localVariables k from rfl]
    rw [if_neg, hk]
    intro hke
    exact hfresh (hke ▸ lookupStr_mem_of_some hk)
  · show ((natStr (st.localVariableCount + 1), v) :: st.localVariables).map Prod.fst
      = tableKeys (st.localVariableCount + 1)
    simp only [List.map_cons, tableKeys]
    rw [hwf]
  · intro j hj
    have hnm : natStr j ∉ st.localVariables.map Prod.fst := by
      rw [hwf]
      exact natStr_succ_not_mem_tableKeys hj
    show (match lookupStr st.localVariables (pyStr (.str (natStr j))) with
          | some w => Except.ok w
          | Option.none => Except.error (keyError (pyStr (.str (natStr j))) frFromJson))
        = Except.error (keyError (natStr j) frFromJson)
    rw [show pyStr (.str (natStr j)) = natStr j from rfl, lookupStr_eq_none hnm]

/-! ## C1 — the value round trip -/

/-- Induction on `Py` values with member-wise hypotheses for the nested
lists. -/
theorem pyIndOn {motive : Py → Prop}
    (hnone : motive .none) (hbool : ∀ b, motive (.bool b))
    (hint : ∀ n, motive (.int n)) (hfloat : ∀ f, motive (.float f))
    (hstr : ∀ s, motive (.str s))
    (hlist : ∀ xs, (∀ x ∈ xs, motive x) → motive (.list xs))
    (htuple : ∀ xs, (∀ x ∈ xs, motive x) → motive (.tuple xs))
    (hdict : ∀ kvs, (∀ p ∈ kvs, motive p.2) → motive (.dict kvs))
    (hrv : ∀ r, motive r → motive (.remoteVar r))
    (hobj : ∀ i ty, motive (.obj i ty)) : ∀ v, motive v
  | .none => hnone
  | .bool b => hbool b
  | .int n => hint n
  | .float f => hfloat f
  | .str s => hstr s
  | .list xs => hlist xs fun x hx =>
      pyIndOn hnone hbool hint hfloat hstr hlist htuple hdict hrv hobj x
  | .tuple xs => htuple xs fun x hx =>
      pyIndOn hnone hbool hint hfloat hstr hlist htuple hdict hrv hobj x
  | .dict kvs => hdict kvs fun p hp =>
      pyIndOn hnone hbool hint hfloat hstr hlist htuple hdict hrv hobj p.2
  | .remoteVar r => hrv r
      (pyIndOn hnone hbool hint hfloat hstr hlist htuple hdict hrv hobj r)
  | .obj i ty => hobj i ty
termination_by v => sizeOf v
decreasing_by
  all_goals simp_wf
  all_goals try omega
  all_goals first
    | (have h0 := List.sizeOf_lt_of_mem hx; omega)
    | (have h1 := List.sizeOf_lt_of_mem hp
       obtain ⟨a, b⟩ := p
       simp only [Prod.mk.sizeOf_spec] at h1 ⊢
       omega)

mutual

/-- The claim's value grammar: `None`, booleans, integers, floats, strings,
and lists of these nested to arbitrary depth. -/
def isPrimitive : Py → Bool
  | .none => true
  | .bool _ => true
  | .int _ => true
  | .float _ => true
  | .str _ => true
  | .list xs => isPrimitiveList xs
  | _ => false

def isPrimitiveList : List Py → Bool
  | [] => true
  | x :: xs => isPrimitive x && isPrimitiveList xs

end

/-- The round trip `decode(encode(v)) == v` of the claim on the server-side
converter pair (`Server.convert_argument_to_json` /
`Server.convert_argument_from_json`), with Python `==`; `false` when the
decoder raises. -/
def serverRoundtripEq (st : ServerState) (v : Py) : Bool :=
  match convert_argument_from_json (convert_argument_to_json st v).2
      (convert_argument_to_json st v).1 with
  | .ok w => pyEq w v
  | .error _ => false

/-- The round trip `decode(encode(v)) == v` of the claim on the client-side
converter pair. -/
def clientRoundtripEq (v : Py) : Bool :=
  match client_convert_argument_from_json (client_convert_argument_to_json v) with
  | .ok w => pyEq w v
  | .error _ => false

theorem server_roundtrip_primitive (v : Py) (hp : isPrimitive v = true) :
    ∀ st, (convert_argument_to_json st v).2 = st
  ∧ ∀ st', convert_argument_from_json st' (convert_argument_to_json st v).1 = .ok v := by
  induction v using pyIndOn with
  | hnone => exact fun st => ⟨rfl, fun st' => rfl⟩
  | hbool b => exact fun st => ⟨rfl, fun st' => rfl⟩
  | hint n => exact fun st => ⟨rfl, fun st' => rfl⟩
  | hfloat f => exact fun st => ⟨rfl, fun st' => rfl⟩
  | hstr s => exact fun st => ⟨rfl, fun st' => rfl⟩
  | hlist xs ih =>
    intro st
    rw [show isPrimitive (.list xs) = isPrimitiveList xs from rfl] at hp
    have key : ∀ (ys : List Py), isPrimitiveList ys = true →
        (∀ x ∈ ys, isPrimitive x = true →
          ∀ st, (convert_argument_to_json st x).2 = st
          ∧ ∀ st', convert_argument_from_json st' (convert_argument_to_json st x).1 = .ok x) →
        ∀ st, (convertListToJson st ys).2 = st
        ∧ ∀ st', convertListFromJson st' (convertListToJson st ys).1 = .ok ys := by
      intro ys
      induction ys with
      | nil => exact fun _ _ st => ⟨rfl, fun st' => rfl⟩
      | cons y ys ihl =>
        intro hys ihm st
        rw [show isPrimitiveList (y :: ys) = (isPrimitive y && isPrimitiveList ys) from rfl,
          Bool.and_eq_true] at hys
        have hy := ihm y (List.mem_cons_self y ys) hys.1 st
        have hrest := ihl hys.2 (fun x hx hpx => ihm x (List.mem_cons_of_mem y hx) hpx)
        constructor
        · show (convertListToJson (convert_argument_to_json st y).2 ys).2 = st
          rw [hy.1, (hrest st).1]
        · intro st'
          show (match convert_argument_from_json st' (convert_argument_to_json st y).1 with
                | .error e => Except.error e
                | .ok z =>
                  match convertListFromJson st' (convertListToJson (convert_argument_to_json st y).2 ys).1 with
                  | .error e => Except.error e
                  | .ok zs => Except.ok (z :: zs)) = Except.ok (y :: ys)
          rw [hy.2 st', hy.1, (hrest st).2 st']
    have hmain := key xs hp (fun x hx hpx => ih x hx hpx) st
    refine ⟨hmain.1, fun st' => ?_⟩
    show (match convertListFromJson st' (convertListToJson st xs).1 with
          | .ok ys => Except.ok (Py.list ys)
          | .error e => Except.error e) = Except.ok (Py.list xs)
    rw [hmain.2 st']
  | htuple xs ih => exact fun st => absurd hp (by exact Bool.false_ne_true)
  | hdict kvs ih => exact fun st => absurd hp (by exact Bool.false_ne_true)
  | hrv r ih => exact fun st => absurd hp (by exact Bool.false_ne_true)
  | hobj i ty => exact fun st => absurd hp (by exact Bool.false_ne_true)

theorem client_roundtrip_primitive (v : Py) (hp : isPrimitive v = true) :
    client_convert_argument_from_json (client_convert_argument_to_json v) = .ok v := by
  induction v using pyIndOn with
  | hnone => rfl
  | hbool b => rfl
  | hint n => rfl
  | hfloat f => rfl
  | hstr s => rfl
  | hlist xs ih =>
    rw [show isPrimitive (.list xs) = isPrimitiveList xs from rfl] at hp
    have key : ∀ (ys : List Py), isPrimitiveList ys = true →
        (∀ x ∈ ys, isPrimitive x = true →
          client_convert_argument_from_json (client_convert_argument_to_json x) = .ok x) →
        clientConvertListFromJson (clientConvertListToJson ys) = .ok ys := by
      intro ys
      induction ys with
      | nil => exact fun _ _ => rfl
      | cons y ys ihl =>
        intro hys ihm
        rw [show isPrimitiveList (y :: ys) = (isPrimitive y && isPrimitiveList ys) from rfl,
          Bool.and_eq_true] at hys
        show (match client_convert_argument_from_json (client_convert_argument_to_json y) with
              | .error e => Except.error e
              | .ok z =>
                match clientConvertListFromJson (clientConvertListToJson ys) with
                | .error e => Except.error e
                | .ok zs => Except.ok (z :: zs)) = Except.ok (y :: ys)
        rw [ihm y (List.mem_cons_self y ys) hys.1,
          ihl hys.2 (fun x hx hpx => ihm x (List.mem_cons_of_mem y hx) hpx)]
    show (match clientConvertListFromJson (clientConvertListToJson xs) with
          | .ok ys => Except.ok (Py.list ys)
          | .error e => Except.error e) = Except.ok (Py.list xs)
    rw [key xs hp (fun x hx hpx => ih x hx hpx)]
  | htuple xs ih => exact absurd hp (by exact Bool.false_ne_true)
  | hdict kvs ih => exact absurd hp (by exact Bool.false_ne_true)
  | hrv r ih => exact absurd hp (by exact Bool.false_ne_true)
  | hobj i ty => exact absurd hp (by exact Bool.false_ne_true)

/-- C1, counterexample: a bare NaN float is in the claim's value grammar,
decoding its encoding returns the very same NaN on both converter pairs, yet
`decode(encode(v)) == v` is `False`, because `nan != nan` under Python
`==`. -/
theorem roundtrip_nan_counterexample :
    isPrimitive (.float .nan) = true
  ∧ convert_argument_from_json ex0 (convert_argument_to_json ex0 (.float .nan)).1
      = .ok (.float .nan)
  ∧ client_convert_argument_from_json (client_convert_argument_to_json (.float .nan))
      = .ok (.float .nan)
  ∧ serverRoundtripEq ex0 (.float .nan) = false
  ∧ clientRoundtripEq (.float .nan) = false :=
  ⟨rfl, rfl, rfl, rfl, rfl⟩

/-- C1, amended: for every value in the claim's grammar, both converter
pairs return exactly the encoded value (the server pair without touching the
reference table), and `decode(encode(v)) == v` holds whenever `v == v` does
— i.e. for every such value not containing a NaN float at a `==`-relevant
position. -/
theorem roundtrip_primitive (st : ServerState) (v : Py) (hp : isPrimitive v = true) :
    convert_argument_from_json (convert_argument_to_json st v).2
      (convert_argument_to_json st v).1 = .ok v
  ∧ (convert_argument_to_json st v).2 = st
  ∧ client_convert_argument_from_json (client_convert_argument_to_json v) = .ok v
  ∧ (pyEq v v = true → serverRoundtripEq st v = true ∧ clientRoundtripEq v = true) := by
  have hs := server_roundtrip_primitive v hp st
  have hc := client_roundtrip_primitive v hp
  refine ⟨hs.2 _, hs.1, hc, fun hself => ⟨?_, ?_⟩⟩
  · show (match convert_argument_from_json (convert_argument_to_json st v).2
          (convert_argument_to_json st v).1 with
        | .ok w => pyEq w v
        | .error _ => false) = true
    rw [hs.2 _]
    exact hself
  · show (match client_convert_argument_from_json (client_convert_argument_to_json v) with
        | .ok w => pyEq w v
        | .error _ => false) = true
    rw [hc]
    exact hself

/-- Witness for the amended C1 at a nested concrete value. -/
theorem roundtrip_primitive_witness :
    isPrimitive (.list [.int 3, .str "a", .none, .float (.fin (5/2)), .bool true,
      .list [.int (-7)]]) = true
  ∧ (convert_argument_from_json
        (convert_argument_to_json ex0 (.list [.int 3, .str "a", .none, .float (.fin (5/2)), .bool true,
          .list [.int (-7)]])).2
        (convert_argument_to_json ex0 (.list [.int 3, .str "a", .none, .float (.fin (5/2)), .bool true,
          .list [.int (-7)]])).1
      = .ok (.list [.int 3, .str "a", .none, .float (.fin (5/2)), .bool true, .list [.int (-7)]])
  ∧ (convert_argument_to_json ex0 (.list [.int 3, .str "a", .none, .float (.fin (5/2)), .bool true,
        .list [.int (-7)]])).2 = ex0
  ∧ client_convert_argument_from_json (client_convert_argument_to_json
        (.list [.int 3, .str "a", .none, .float (.fin (5/2)), .bool true, .list [.int (-7)]]))
      = .ok (.list [.int 3, .str "a", .none, .float (.fin (5/2)), .bool true, .list [.int (-7)]])
  ∧ (pyEq (.list [.int 3, .str "a", .none, .float (.fin (5/2)), .bool true, .list [.int (-7)]])
        (.list [.int 3, .str "a", .none, .float (.fin (5/2)), .bool true, .list [.int (-7)]]) = true →
      serverRoundtripEq ex0 (.list [.int 3, .str "a", .none, .float (.fin (5/2)), .bool true,
        .list [.int (-7)]]) = true
      ∧ clientRoundtripEq (.list [.int 3, .str "a", .none, .float (.fin (5/2)), .bool true,
        .list [.int (-7)]]) = true)) :=
  ⟨by decide, roundtrip_primitive ex0 _ (by decide)⟩

/-! ## C3 — the server never raises -/

theorem traceback_roundtrip (frames : List Frame) :
    tracebackFromDict (tracebackToDict frames) = .ok frames := by
  show decodeFrames (frames.map _) = .ok frames
  induction frames with
  | nil => rfl
  | cons f fs ih =>
    show (match decodeFrame (.dict [("funcname", .str f.funcName), ("filename", .str f.fileName),
            ("lineno", .int (f.lineNo : ℤ))]) with
          | .error e => Except.error e
          | .ok f' =>
            match decodeFrames (fs.map _) with
            | .error e => Except.error e
            | .ok fs' => Except.ok (f' :: fs')) = Except.ok (f :: fs)
    rw [show decodeFrame (.dict [("funcname", .str f.funcName), ("filename", .str f.fileName),
          ("lineno", .int (f.lineNo : ℤ))]) = .ok ⟨f.funcName, f.fileName, (f.lineNo : ℤ).toNat⟩ from rfl]
    rw [ih]
    simp

/-- C3: for every loaded command and server state, `handle_request` produces
exactly one response — `run_command`'s success response when nothing raised,
and otherwise the `exception` response carrying `repr` of the raised error
and its (non-empty, losslessly serialized) traceback; an empty line produces
no response but also no crash, a load failure produces an exception
response; and the serving loop answers every request in a batch, so the
process keeps serving after failures. -/
theorem handle_request_total :
    (∀ st cmd, (handle_request st (.command cmd)).1 = some (serverResponse st cmd).1
      ∧ (match run_command st cmd with
         | .ok (resp, st') => serverResponse st cmd = (resp, st')
         | .error e => serverResponse st cmd = (respException e, st)))
  ∧ (∀ st e, handle_request st (.loadFailure e) = (some (respException e), st))
  ∧ (∀ st, handle_request st .empty = (Option.none, st))
  ∧ (∀ e, pyIndex (respException e) "status" frUnpack = .ok (.str "exception")
      ∧ pyIndex (respException e) "message" frUnpack = .ok (.str (pyRepr e))
      ∧ tracebackFromDict (tracebackToDict (errFrames e)) = .ok (errFrames e)
      ∧ errFrames e ≠ [])
  ∧ (∀ st reqs, ((serve st reqs).1).length = reqs.length) := by
  refine ⟨fun st cmd => ⟨rfl, ?_⟩, fun st e => rfl, fun st => rfl,
    fun e => ⟨rfl, rfl, traceback_roundtrip _, by simp [errFrames]⟩, fun st reqs => ?_⟩
  · match h : run_command st cmd with
    | .ok (resp, st') => simp [serverResponse, h]
    | .error e => simp [serverResponse, h]
  · induction reqs generalizing st with
    | nil => rfl
    | cons r rs ih =>
      show ((handle_request st r).2 |> fun st' => ((serve st' rs).1.length + 1)) = rs.length + 1
      simp [ih]

/-! ## C4 — `unpack_result` classification -/

theorem unpack_of_status_success {resp status : Py}
    (hget : pyGetD resp "status" (.str "invalid") frUnpack = .ok status)
    (hs : pyEq status (.str "success") = true) :
    unpack_result resp = .ok resp := by
  unfold unpack_result
  rw [hget]
  simp [hs]

theorem unpack_of_status_other {resp status : Py}
    (hget : pyGetD resp "status" (.str "invalid") frUnpack = .ok status)
    (hs1 : pyEq status (.str "success") = false)
    (hs2 : pyEq status (.str "exception") = false) :
    unpack_result resp = .error (.localErr runtimeDecodeError) := by
  unfold unpack_result
  rw [hget]
  simp [hs1, hs2]

theorem charsPrefixEq_refl : ∀ l : List Char, charsPrefixEq l l = true
  | [] => rfl
  | c :: cs => by
    show (c == c && charsPrefixEq cs cs) = true
    rw [charsPrefixEq_refl cs, beq_self_eq_true]
    rfl

theorem charsContain_self (l : List Char) : charsContain l l = true := by
  cases l with
  | nil => rfl
  | cons c cs =>
    show (charsPrefixEq (c :: cs) (c :: cs) || charsContain (c :: cs) cs) = true
    rw [charsPrefixEq_refl]
    exact Bool.true_or _

theorem strContains_self_of_append (p m : String) : strContains m (p ++ m) = true := by
  show charsContain m.data (p.data ++ m.data) = true
  induction p.data with
  | nil => exact charsContain_self m.data
  | cons c cs ih =>
    show (charsPrefixEq m.data (c :: (cs ++ m.data)) || charsContain m.data (cs ++ m.data)) = true
    rw [ih]
    exact Bool.or_true _

/-- C4: `unpack_result` raises a `RemoteError` exactly on responses with
status `exception` — its message is the fixed prefix followed by the
server-supplied description (so it contains that description) and it carries
the reconstructed, non-empty frame trace; it returns the parsed response
exactly on status `success`; and a response whose `status` field is missing
or holds an unrecognized value raises the local `RuntimeError`, a kind
distinct from `RemoteError`. -/
theorem unpack_result_classification :
    (∀ e, unpack_result (respException e)
        = .error (.remote ("Server-side processing failed with " ++ pyRepr e) (errFrames e))
      ∧ errFrames e ≠ []
      ∧ strContains (pyRepr e) ("Server-side processing failed with " ++ pyRepr e) = true)
  ∧ (∀ kvs, lookupStr kvs "status" = some (.str "success") →
      unpack_result (.dict kvs) = .ok (.dict kvs))
  ∧ (∀ kvs, lookupStr kvs "status" = Option.none →
      unpack_result (.dict kvs) = .error (.localErr runtimeDecodeError))
  ∧ (∀ kvs v, lookupStr kvs "status" = some v →
      pyEq v (.str "success") = false → pyEq v (.str "exception") = false →
      unpack_result (.dict kvs) = .error (.localErr runtimeDecodeError))
  ∧ (∀ m t e, (ClientErr.remote m t) ≠ (ClientErr.localErr e)) := by
  refine ⟨fun e => ⟨?_, by simp [errFrames], strContains_self_of_append _ _⟩,
    fun kvs h => ?_, fun kvs h => ?_, fun kvs v h hs1 hs2 => ?_, fun m t e => by nofun⟩
  · rw [show unpack_result (respException e)
        = (match tracebackFromDict (tracebackToDict (errFrames e)) with
           | .error e' => Except.error (ClientErr.localErr e')
           | .ok frames =>
             Except.error (.remote ("Server-side processing failed with "
               ++ pyStr (.str (pyRepr e))) frames)) from rfl]
    rw [traceback_roundtrip]
    rfl
  · have hget : pyGetD (.dict kvs) "status" (.str "invalid") frUnpack = .ok (.str "success") := by
      show (match lookupStr kvs "status" with
            | some v => Except.ok v
            | Option.none => Except.ok (Py.str "invalid")) = Except.ok (Py.str "success")
      rw [h]
    exact unpack_of_status_success hget rfl
  · have hget : pyGetD (.dict kvs) "status" (.str "invalid") frUnpack = .ok (.str "invalid") := by
      show (match lookupStr kvs "status" with
            | some v => Except.ok v
            | Option.none => Except.ok (Py.str "invalid")) = Except.ok (Py.str "invalid")
      rw [h]
    exact unpack_of_status_other hget rfl rfl
  · have hget : pyGetD (.dict kvs) "status" (.str "invalid") frUnpack = .ok v := by
      show (match lookupStr kvs "status" with
            | some w => Except.ok w
            | Option.none => Except.ok (Py.str "invalid")) = Except.ok v
      rw [h]
    exact unpack_of_status_other hget hs1 hs2

/-- Witness for C4 at concrete responses: a concrete exception response, a
concrete success response, and two concrete malformed ones. -/
theorem unpack_result_classification_witness :
    (unpack_result (respException ⟨"ValueError", "boom", ⟨"f", "server.py", 3⟩, []⟩)
        = .error (.remote ("Server-side processing failed with "
            ++ pyRepr ⟨"ValueError", "boom", ⟨"f", "server.py", 3⟩, []⟩)
            (errFrames ⟨"ValueError", "boom", ⟨"f", "server.py", 3⟩, []⟩))
      ∧ errFrames (⟨"ValueError", "boom", ⟨"f", "server.py", 3⟩, []⟩ : PyErr) ≠ []
      ∧ strContains (pyRepr ⟨"ValueError", "boom", ⟨"f", "server.py", 3⟩, []⟩)
          ("Server-side processing failed with "
            ++ pyRepr ⟨"ValueError", "boom", ⟨"f", "server.py", 3⟩, []⟩) = true)
  ∧ unpack_result (.dict [("status", .str "success"), ("return", .int 42)])
      = .ok (.dict [("status", .str "success"), ("return", .int 42)])
  ∧ unpack_result (.dict [("return", .int 42)])
      = .error (.localErr runtimeDecodeError)
  ∧ unpack_result (.dict [("status", .str "bogus")])
      = .error (.localErr runtimeDecodeError) :=
  ⟨(unpack_result_classification).1 ⟨"ValueError", "boom", ⟨"f", "server.py", 3⟩, []⟩,
   (unpack_result_classification).2.1 [("status", .str "success"), ("return", .int 42)] rfl,
   (unpack_result_classification).2.2.1 [("return", .int 42)] rfl,
   (unpack_result_classification).2.2.2.1 [("status", .str "bogus")] (.str "bogus") rfl rfl rfl⟩

/-! ## C2 — the attribute / callable protocol -/

/-- `convert_argument_to_json` on a custom-class instance whose type name is
not on `builtins`: store it and answer a RemoteVar tag. -/
theorem toJson_obj_store (st : ServerState) (oid : Nat) (ty : String)
    (hty : hasBuiltinAttr ty = false) (hne : ty ≠ "NoneType") :
    convert_argument_to_json st (.obj oid ty)
      = (.dict [("type", .str "RemoteVar"),
                ("value", .str (natStr (st.localVariableCount + 1)))],
         { st with
           localVariableCount := st.localVariableCount + 1,
           localVariables :=
             (natStr (st.localVariableCount + 1), .obj oid ty) :: st.localVariables }) := by
  have hbne : (ty != "NoneType") = true := by
    rw [bne_iff_ne]
    exact hne
  show (if !hasBuiltinAttr (typeName (.obj oid ty)) && (typeName (.obj oid ty) != "NoneType")
        then (Py.dict [("type", .str "RemoteVar"), ("value", .str (store st (.obj oid ty)).1)],
              (store st (.obj oid ty)).2)
        else (.dict [("type", .str (typeName (.obj oid ty))), ("value", .obj oid ty)], st)) = _
  rw [show typeName (.obj oid ty) = ty from rfl, hty, hbne]
  rfl

/-- `convert_argument_to_json` on an object of a builtins-named type: sent
by value, untagged as a reference, table untouched. -/
theorem toJson_obj_byvalue (st : ServerState) (oid : Nat) (ty : String)
    (hty : hasBuiltinAttr ty = true) :
    convert_argument_to_json st (.obj oid ty)
      = (.dict [("type", .str ty), ("value", .obj oid ty)], st) := by
  show (if !hasBuiltinAttr (typeName (.obj oid ty)) && (typeName (.obj oid ty) != "NoneType")
        then (Py.dict [("type", .str "RemoteVar"), ("value", .str (store st (.obj oid ty)).1)],
              (store st (.obj oid ty)).2)
        else (.dict [("type", .str (typeName (.obj oid ty))), ("value", .obj oid ty)], st)) = _
  rw [show typeName (.obj oid ty) = ty from rfl, hty]
  rfl

/-- Whether a value is a Python list or tuple (whose JSON form is a bare
list rather than a tagged dict). -/
def isListLike : Py → Bool
  | .list _ => true
  | .tuple _ => true
  | _ => false

theorem except_bind_ok {α β : Type} (a : α) (f : α → Except PyErr β) :
    (Except.ok a >>= f) = f a := rfl

theorem return_target_of_lookup {st : ServerState} {tc : String}
    {t : List (String × Attr)} (fr : Frame)
    (ht : st.targetClasses.lookup tc = some t) :
    return_target st (.str tc) fr = .ok t := by
  show (match st.targetClasses.lookup tc with
        | some x => Except.ok x
        | Option.none => Except.error (keyError tc fr)) = Except.ok t
  rw [ht]

theorem getattrTarget_of_lookup {t : List (String × Attr)} {nm : String}
    {a : Attr} (fr : Frame) (ha : lookupAttr t nm = some a) :
    getattrTarget t (.str nm) fr = .ok a := by
  show (match lookupAttr t nm with
        | some x => Except.ok x
        | Option.none =>
          Except.error (attributeError ("object has no attribute '" ++ nm ++ "'") fr))
      = Except.ok a
  rw [ha]

/-- `run_command` on an attribute-probe command, callable member: the
response carries the `callable` sentinel. -/
theorem run_command_attribute_func (st : ServerState) (tc nm : String)
    (t : List (String × Attr)) (f : List Py → List (String × Py) → Except PyErr Py)
    (ht : st.targetClasses.lookup tc = some t) (ha : lookupAttr t nm = some (.func f)) :
    run_command st (attributeCommand tc nm)
      = .ok (respSuccess (.dict [("type", .str "callable"), ("value", .none)]), st) := by
  show (return_target st (.str tc) frGetAttribute >>= fun target =>
        getattrTarget target (.str nm) frGetAttribute >>= fun ta =>
        match ta with
        | Attr.func _ => Except.ok (respSuccess (.dict [("type", .str "callable"), ("value", .none)]), st)
        | Attr.val v =>
          match convert_argument_to_json st v with
          | (ret, st') => Except.ok (respSuccess ret, st'))
      = Except.ok (respSuccess (.dict [("type", .str "callable"), ("value", .none)]), st)
  rw [return_target_of_lookup frGetAttribute ht, except_bind_ok,
    getattrTarget_of_lookup frGetAttribute ha, except_bind_ok]

/-- `run_command` on an attribute-probe command, plain value: the value is
converted (possibly storing references) and answered. -/
theorem run_command_attribute_val (st : ServerState) (tc nm : String)
    (t : List (String × Attr)) (v : Py)
    (ht : st.targetClasses.lookup tc = some t) (ha : lookupAttr t nm = some (.val v)) :
    run_command st (attributeCommand tc nm)
      = .ok (respSuccess (convert_argument_to_json st v).1,
          (convert_argument_to_json st v).2) := by
  show (return_target st (.str tc) frGetAttribute >>= fun target =>
        getattrTarget target (.str nm) frGetAttribute >>= fun ta =>
        match ta with
        | Attr.func _ => Except.ok (respSuccess (.dict [("type", .str "callable"), ("value", .none)]), st)
        | Attr.val w =>
          match convert_argument_to_json st w with
          | (ret, st') => Except.ok (respSuccess ret, st'))
      = Except.ok (respSuccess (convert_argument_to_json st v).1,
          (convert_argument_to_json st v).2)
  rw [return_target_of_lookup frGetAttribute ht, except_bind_ok,
    getattrTarget_of_lookup frGetAttribute ha, except_bind_ok]

theorem serverResponse_attribute_func (st : ServerState) (tc nm : String)
    (t : List (String × Attr)) (f : List Py → List (String × Py) → Except PyErr Py)
    (ht : st.targetClasses.lookup tc = some t) (ha : lookupAttr t nm = some (.func f)) :
    serverResponse st (attributeCommand tc nm)
      = (respSuccess (.dict [("type", .str "callable"), ("value", .none)]), st) := by
  show (match run_command st (attributeCommand tc nm) with
        | .ok (resp, st') => (resp, st')
        | .error e => (respException e, st))
      = (respSuccess (.dict [("type", .str "callable"), ("value", .none)]), st)
  rw [run_command_attribute_func st tc nm t f ht ha]

theorem serverResponse_attribute_val (st : ServerState) (tc nm : String)
    (t : List (String × Attr)) (v : Py)
    (ht : st.targetClasses.lookup tc = some t) (ha : lookupAttr t nm = some (.val v)) :
    serverResponse st (attributeCommand tc nm)
      = (respSuccess (convert_argument_to_json st v).1, (convert_argument_to_json st v).2) := by
  show (match run_command st (attributeCommand tc nm) with
        | .ok (resp, st') => (resp, st')
        | .error e => (respException e, st))
      = (respSuccess (convert_argument_to_json st v).1, (convert_argument_to_json st v).2)
  rw [run_command_attribute_val st tc nm t v ht ha]

theorem unpack_respSuccess (r : Py) : unpack_result (respSuccess r) = .ok (respSuccess r) := rfl

/-- The tail of `__getattr__`'s non-callable branch: decoding the `return`
payload and handing the value back. -/
theorem getattr_tail (tc nm : String) (st2 : ServerState) (r w : Py)
    (hdec : client_convert_argument_from_json r = .ok w) :
    (match client_convert_argument_from_json r with
     | .ok z => (GetattrResult.value z, [attributeCommand tc nm], st2)
     | .error e => (.raised (.localErr e), [attributeCommand tc nm], st2))
    = (GetattrResult.value w, [attributeCommand tc nm], st2) := by
  rw [hdec]

/-- The tail of `handle_call`: decoding the `return` payload of the second
round trip. -/
theorem call_tail (tc nm : String) (args : List Py) (kwargs : List (String × Py))
    (st2 : ServerState) (r w : Py)
    (hdec : client_convert_argument_from_json r = .ok w) :
    (match client_convert_argument_from_json r with
     | .ok z => ((Except.ok z : Except ClientErr Py), [functionCommand tc nm args kwargs], st2)
     | .error e => (.error (.localErr e), [functionCommand tc nm args kwargs], st2))
    = ((Except.ok w : Except ClientErr Py), [functionCommand tc nm args kwargs], st2) := by
  rw [hdec]

/-- `run_command` on an invocation command: decode the arguments, invoke,
convert the result. -/
theorem run_command_function (st : ServerState) (tc nm : String)
    (t : List (String × Attr)) (f : List Py → List (String × Py) → Except PyErr Py)
    (args : List Py) (kwargs : List (String × Py)) (dargs : List Py)
    (dkw : List (String × Py)) (v : Py)
    (ht : st.targetClasses.lookup tc = some t) (ha : lookupAttr t nm = some (.func f))
    (hargs : convertListFromJson st (args.map client_convert_argument_to_json) = .ok dargs)
    (hkw : decodeKwargs st (kwargs.map fun p => (p.1, client_convert_argument_to_json p.2)) = .ok dkw)
    (hres : f dargs dkw = .ok v) :
    run_command st (functionCommand tc nm args kwargs)
      = .ok (respSuccess (convert_argument_to_json st v).1,
          (convert_argument_to_json st v).2) := by
  show (convertListFromJson st (args.map client_convert_argument_to_json) >>= fun args' =>
        decodeKwargs st (kwargs.map fun p => (p.1, client_convert_argument_to_json p.2)) >>= fun kwargs' =>
        return_target st (.str tc) frRunCommand >>= fun target =>
        getattrTarget target (.str nm) frRunCommand >>= fun tf =>
        callAttr tf args' kwargs' frRunCommand >>= fun result =>
        match convert_argument_to_json st result with
        | (ret, st') => Except.ok (respSuccess ret, st'))
      = Except.ok (respSuccess (convert_argument_to_json st v).1,
          (convert_argument_to_json st v).2)
  rw [hargs, except_bind_ok, hkw, except_bind_ok,
    return_target_of_lookup frRunCommand ht, except_bind_ok,
    getattrTarget_of_lookup frRunCommand ha, except_bind_ok]
  show (f dargs dkw >>= fun result =>
        match convert_argument_to_json st result with
        | (ret, st') => Except.ok (respSuccess ret, st'))
      = Except.ok (respSuccess (convert_argument_to_json st v).1,
          (convert_argument_to_json st v).2)
  rw [hres, except_bind_ok]

/-- C2, counterexample to the claim as stated: probing the plain (list-valued,
hence non-callable) attribute `xs` does send exactly one attribute command,
but the access does not return the decoded value — the client raises a local
`TypeError` when it subscripts the response's bare-list `return` with
`["type"]`. -/
theorem getattr_list_attribute_counterexample :
    lookupAttr [("xs", .val (.list [.int 1, .int 2])), ("x", .val (.int 4))] "xs"
      = some (.val (.list [.int 1, .int 2]))
  ∧ (proxyGetattr ⟨[("TargetClass", [("xs", .val (.list [.int 1, .int 2])), ("x", .val (.int 4))])], [], 0⟩
        "TargetClass" "xs").1
      = .raised (.localErr (typeError "list indices must be integers or slices, not str" frGetattr))
  ∧ (proxyGetattr ⟨[("TargetClass", [("xs", .val (.list [.int 1, .int 2])), ("x", .val (.int 4))])], [], 0⟩
        "TargetClass" "xs").2.1 = [attributeCommand "TargetClass" "xs"]
  ∧ (proxyGetattr ⟨[("TargetClass", [("xs", .val (.list [.int 1, .int 2])), ("x", .val (.int 4))])], [], 0⟩
        "TargetClass" "xs").1 ≠ .value (.list [.int 1, .int 2]) :=
  ⟨rfl, rfl, rfl, by
    intro h
    have h2 : GetattrResult.raised (.localErr (typeError "list indices must be integers or slices, not str" frGetattr))
        = GetattrResult.value (.list [.int 1, .int 2]) := h
    exact GetattrResult.noConfusion h2⟩

/-- C2, amended: for a non-underscore member access, (a) a non-callable
attribute whose value is not a list/tuple costs exactly one attribute
command and returns the decoded value; (b) a list/tuple-valued attribute
still costs one command but raises a local `TypeError` instead of returning;
(c) a callable member makes the probe response carry the `callable` tag and
the access return the invoker; (d) calling the invoker sends exactly one
function command with the tagged args/kwargs and returns the decoded
converted result of that second round trip. -/
theorem getattr_protocol (st : ServerState) (tc nm : String)
    (t : List (String × Attr))
    (hn : nm.data ≠ []) (hu : nm.front ≠ '_')
    (ht : st.targetClasses.lookup tc = some t) :
    (∀ v w, lookupAttr t nm = some (.val v) → isListLike v = false →
       client_convert_argument_from_json (convert_argument_to_json st v).1 = .ok w →
       proxyGetattr st tc nm
         = (.value w, [attributeCommand tc nm], (convert_argument_to_json st v).2))
  ∧ (∀ xs, lookupAttr t nm = some (.val (.list xs)) →
       proxyGetattr st tc nm
         = (.raised (.localErr (typeError "list indices must be integers or slices, not str" frGetattr)),
            [attributeCommand tc nm], (convert_argument_to_json st (.list xs)).2))
  ∧ (∀ f, lookupAttr t nm = some (.func f) →
       (serverResponse st (attributeCommand tc nm)).1
         = respSuccess (.dict [("type", .str "callable"), ("value", .none)])
       ∧ proxyGetattr st tc nm = (.invoker, [attributeCommand tc nm], st))
  ∧ (∀ f args kwargs dargs dkw v w, lookupAttr t nm = some (.func f) →
       convertListFromJson st (args.map client_convert_argument_to_json) = .ok dargs →
       decodeKwargs st (kwargs.map fun p => (p.1, client_convert_argument_to_json p.2)) = .ok dkw →
       f dargs dkw = .ok v →
       client_convert_argument_from_json (convert_argument_to_json st v).1 = .ok w →
       proxyCall st tc nm args kwargs
         = (.ok w, [functionCommand tc nm args kwargs], (convert_argument_to_json st v).2)) := by
  have hnot : ¬(nm.data = []) := hn
  refine ⟨?_, ?_, ?_, ?_⟩
  · intro v w hval hnl hdec
    have hsr := serverResponse_attribute_val st tc nm t v ht hval
    unfold proxyGetattr
    rw [if_neg hnot, if_neg hu, hsr]
    cases v with
    | none => exact getattr_tail tc nm _ _ w hdec
    | bool b => exact getattr_tail tc nm _ _ w hdec
    | int n => exact getattr_tail tc nm _ _ w hdec
    | float f => exact getattr_tail tc nm _ _ w hdec
    | str s => exact getattr_tail tc nm _ _ w hdec
    | list xs => exact Bool.noConfusion hnl
    | tuple xs => exact Bool.noConfusion hnl
    | dict kvs => exact getattr_tail tc nm _ _ w hdec
    | remoteVar r => exact getattr_tail tc nm _ _ w hdec
    | obj i ty =>
      by_cases hb : hasBuiltinAttr ty = true
      · -- sent by value under its (builtins-named) type tag, never `callable`
        have hnc : (ty == "callable") = false := by
          rcases Bool.eq_false_or_eq_true (ty == "callable") with h | h
          · have heq : ty = "callable" := eq_of_beq h
            rw [heq] at hb
            exact absurd hb (by decide)
          · exact h
        rw [toJson_obj_byvalue st i ty hb] at hdec ⊢
        show (if pyEq (.str ty) (.str "callable") = true
              then (GetattrResult.invoker, [attributeCommand tc nm],
                (Py.dict [("type", .str ty), ("value", .obj i ty)], st).2)
              else
                match client_convert_argument_from_json
                    (.dict [("type", .str ty), ("value", .obj i ty)]) with
                | .ok z => (GetattrResult.value z, [attributeCommand tc nm],
                    (Py.dict [("type", .str ty), ("value", .obj i ty)], st).2)
                | .error e => (.raised (.localErr e), [attributeCommand tc nm],
                    (Py.dict [("type", .str ty), ("value", .obj i ty)], st).2)) = _
        rw [show pyEq (.str ty) (.str "callable") = (ty == "callable") from rfl, hnc]
        simp only [Bool.false_eq_true, if_false]
        exact getattr_tail tc nm _ _ w hdec
      · by_cases hn2 : ty = "NoneType"
        · subst hn2
          exact getattr_tail tc nm _ _ w hdec
        · rw [toJson_obj_store st i ty (Bool.eq_false_iff.mpr hb) hn2] at hdec ⊢
          exact getattr_tail tc nm _ _ w hdec
  · intro xs hval
    have hsr := serverResponse_attribute_val st tc nm t (.list xs) ht hval
    unfold proxyGetattr
    rw [if_neg hnot, if_neg hu, hsr]
    rfl
  · intro f hfunc
    have hsr := serverResponse_attribute_func st tc nm t f ht hfunc
    refine ⟨by rw [hsr], ?_⟩
    unfold proxyGetattr
    rw [if_neg hnot, if_neg hu, hsr]
    rfl
  · intro f args kwargs dargs dkw v w hfunc hargs hkw hres hdec
    have hrc := run_command_function st tc nm t f args kwargs dargs dkw v ht hfunc hargs hkw hres
    unfold proxyCall
    rw [show serverResponse st (functionCommand tc nm args kwargs)
        = (respSuccess (convert_argument_to_json st v).1, (convert_argument_to_json st v).2) from by
      show (match run_command st (functionCommand tc nm args kwargs) with
            | .ok (resp, st') => (resp, st')
            | .error e => (respException e, st))
          = (respSuccess (convert_argument_to_json st v).1, (convert_argument_to_json st v).2)
      rw [hrc]]
    exact call_tail tc nm args kwargs _ _ w hdec

/-- A concrete served function: `get_double`. -/
def exDouble : List Py → List (String × Py) → Except PyErr Py := fun args _ =>
  match args with
  | [.int n] => .ok (.int (2 * n))
  | _ => .error (typeError "unsupported arguments" ⟨"get_double", "library.py", 33⟩)

/-- A concrete served object with a plain attribute, a list attribute and a
callable member. -/
def exT : List (String × Attr) :=
  [("xs", .val (.list [.int 1, .int 2])), ("x", .val (.int 4)), ("get_double", .func exDouble)]

def exSt : ServerState := ⟨[("TargetClass", exT)], [], 0⟩

/-- Witness for the amended C2: reading `x` returns `4` in one round trip;
reading the list attribute raises; `get_double` probes as callable and
`get_double(21)` returns `42` via the second round trip. -/
theorem getattr_protocol_witness :
    proxyGetattr exSt "TargetClass" "x"
      = (.value (.int 4), [attributeCommand "TargetClass" "x"],
         (convert_argument_to_json exSt (.int 4)).2)
  ∧ proxyGetattr exSt "TargetClass" "xs"
      = (.raised (.localErr (typeError "list indices must be integers or slices, not str" frGetattr)),
         [attributeCommand "TargetClass" "xs"],
         (convert_argument_to_json exSt (.list [.int 1, .int 2])).2)
  ∧ ((serverResponse exSt (attributeCommand "TargetClass" "get_double")).1
      = respSuccess (.dict [("type", .str "callable"), ("value", .none)])
     ∧ proxyGetattr exSt "TargetClass" "get_double"
        = (.invoker, [attributeCommand "TargetClass" "get_double"], exSt))
  ∧ proxyCall exSt "TargetClass" "get_double" [.int 21] []
      = (.ok (.int 42), [functionCommand "TargetClass" "get_double" [.int 21] []],
         (convert_argument_to_json exSt (.int 42)).2) :=
  ⟨(getattr_protocol exSt "TargetClass" "x" exT (by decide) (by decide) rfl).1
      (.int 4) (.int 4) rfl rfl rfl,
   (getattr_protocol exSt "TargetClass" "xs" exT (by decide) (by decide) rfl).2.1
      [.int 1, .int 2] rfl,
   (getattr_protocol exSt "TargetClass" "get_double" exT (by decide) (by decide) rfl).2.2.1
      exDouble rfl,
   (getattr_protocol exSt "TargetClass" "get_double" exT (by decide) (by decide) rfl).2.2.2
      exDouble [.int 21] [] [.int 21] [] (.int 42) (.int 42) rfl rfl rfl rfl rfl⟩

/-! ## C5 — server→client transfer of non-primitive values -/

/-- C5, counterexample: a `dict` result — whose runtime type is none of
`None`/bool/int/float/str/list/tuple — is *not* stored in the reference
table and *not* encoded as a RemoteVar: because `hasattr(builtins, "dict")`
holds, `convert_argument_to_json` ships it by value, embedded raw in the
tagged payload, leaving the table untouched. -/
theorem byref_dict_counterexample :
    typeName (.dict [("a", .int 1)]) = "dict"
  ∧ (convert_argument_to_json ex0 (.dict [("a", .int 1)])).1
      = .dict [("type", .str "dict"), ("value", .dict [("a", .int 1)])]
  ∧ (convert_argument_to_json ex0 (.dict [("a", .int 1)])).2 = ex0 :=
  ⟨rfl, rfl, rfl⟩

/-- C5, amended: on the server→client direction the reference table
intercepts exactly the values whose type *name* is not an attribute of the
`builtins` module (and is not `NoneType`): those are stored under the next
counter value and encoded as a RemoteVar carrying only the fresh id.
Values of builtin-named non-primitive types — dicts in particular — are sent
by value, and lists/tuples are decomposed element-wise. -/
theorem byref_nonbuiltin_only (st : ServerState) (oid : Nat) (ty : String)
    (hty : hasBuiltinAttr ty = false) (hne : ty ≠ "NoneType") :
    convert_argument_to_json st (.obj oid ty)
      = (.dict [("type", .str "RemoteVar"),
                ("value", .str (natStr (st.localVariableCount + 1)))],
         { st with
           localVariableCount := st.localVariableCount + 1,
           localVariables :=
             (natStr (st.localVariableCount + 1), .obj oid ty) :: st.localVariables })
  ∧ (∀ kvs, convert_argument_to_json st (.dict kvs)
      = (.dict [("type", .str "dict"), ("value", .dict kvs)], st))
  ∧ (∀ xs, convert_argument_to_json st (.list xs)
      = (.list (convertListToJson st xs).1, (convertListToJson st xs).2))
  ∧ (∀ xs, convert_argument_to_json st (.tuple xs)
      = (.list (convertListToJson st xs).1, (convertListToJson st xs).2)) := by
  have hbne : (ty != "NoneType") = true := by
    rw [bne_iff_ne]
    exact hne
  refine ⟨?_, fun kvs => rfl, fun xs => rfl, fun xs => rfl⟩
  show (if !hasBuiltinAttr (typeName (.obj oid ty)) && (typeName (.obj oid ty) != "NoneType")
        then (Py.dict [("type", .str "RemoteVar"), ("value", .str (store st (.obj oid ty)).1)],
              (store st (.obj oid ty)).2)
        else (.dict [("type", .str (typeName (.obj oid ty))), ("value", .obj oid ty)], st)) = _
  rw [show typeName (.obj oid ty) = ty from rfl, hty, hbne]
  rfl

/-- Witness for the amended C5: a custom-class instance is stored and
referenced; a dict goes by value; a list decomposes. -/
theorem byref_nonbuiltin_only_witness :
    hasBuiltinAttr "ComplicatedObject" = false
  ∧ "ComplicatedObject" ≠ "NoneType"
  ∧ (convert_argument_to_json ex0 (.obj 9 "ComplicatedObject")
      = (.dict [("type", .str "RemoteVar"),
                ("value", .str (natStr (ex0.localVariableCount + 1)))],
         { ex0 with
           localVariableCount := ex0.localVariableCount + 1,
           localVariables :=
             (natStr (ex0.localVariableCount + 1), .obj 9 "ComplicatedObject") :: ex0.localVariables })
  ∧ (∀ kvs, convert_argument_to_json ex0 (.dict kvs)
      = (.dict [("type", .str "dict"), ("value", .dict kvs)], ex0))
  ∧ (∀ xs, convert_argument_to_json ex0 (.list xs)
      = (.list (convertListToJson ex0 xs).1, (convertListToJson ex0 xs).2))
  ∧ (∀ xs, convert_argument_to_json ex0 (.tuple xs)
      = (.list (convertListToJson ex0 xs).1, (convertListToJson ex0 xs).2))) :=
  ⟨rfl, by decide, byref_nonbuiltin_only ex0 9 "ComplicatedObject" rfl (by decide)⟩

/-! ## C7 — the named-pipe retry loop -/

theorem pipeSendLoop_succ_ok (env : Nat → PipeAttempt) (fuel k : Nat)
    (delay slept : ℚ) (r : String) (h : env k = .ok r) :
    pipeSendLoop env (fuel + 1) k delay slept = .ok r slept := by
  show (match env k with
        | .ok resp => PipeOutcome.ok resp slept
        | .err c =>
          if c ≠ ERROR_FILE_NOT_FOUND then .raised c slept
          else if delay > MAX_TIMEOUT then .raised c slept
          else pipeSendLoop env fuel (k + 1) (delay * (3/2)) (slept + delay))
      = PipeOutcome.ok r slept
  rw [h]

theorem pipeSendLoop_succ_err (env : Nat → PipeAttempt) (fuel k : Nat)
    (delay slept : ℚ) (code : ℤ) (h : env k = .err code) :
    pipeSendLoop env (fuel + 1) k delay slept
      = if code ≠ ERROR_FILE_NOT_FOUND then .raised code slept
        else if delay > MAX_TIMEOUT then .raised code slept
        else pipeSendLoop env fuel (k + 1) (delay * (3/2)) (slept + delay) := by
  show (match env k with
        | .ok resp => PipeOutcome.ok resp slept
        | .err c =>
          if c ≠ ERROR_FILE_NOT_FOUND then .raised c slept
          else if delay > MAX_TIMEOUT then .raised c slept
          else pipeSendLoop env fuel (k + 1) (delay * (3/2)) (slept + delay)) = _
  rw [h]

theorem pipeSendLoop_no_fuelOut_aux (fuel : Nat) : ∀ (env : Nat → PipeAttempt)
    (k : Nat) (delay slept : ℚ), MAX_TIMEOUT < delay * (3/2)^fuel →
    pipeSendLoop env (fuel + 1) k delay slept ≠ .fuelOut := by
  induction fuel with
  | zero =>
    intro env k delay slept hbig
    rw [pow_zero, mul_one] at hbig
    cases henv : env k with
    | ok resp =>
      rw [pipeSendLoop_succ_ok env 0 k delay slept resp henv]
      nofun
    | err code =>
      rw [pipeSendLoop_succ_err env 0 k delay slept code henv]
      by_cases hc : code ≠ ERROR_FILE_NOT_FOUND
      · rw [if_pos hc]
        nofun
      · rw [if_neg hc, if_pos hbig]
        nofun
  | succ fuel ih =>
    intro env k delay slept hbig
    cases henv : env k with
    | ok resp =>
      rw [pipeSendLoop_succ_ok env (fuel + 1) k delay slept resp henv]
      nofun
    | err code =>
      rw [pipeSendLoop_succ_err env (fuel + 1) k delay slept code henv]
      by_cases hc : code ≠ ERROR_FILE_NOT_FOUND
      · rw [if_pos hc]
        nofun
      · rw [if_neg hc]
        by_cases hd : delay > MAX_TIMEOUT
        · rw [if_pos hd]
          nofun
        · rw [if_neg hd]
          exact ih env (k + 1) (delay * (3/2)) (slept + delay)
            (by rw [show delay * (3/2) * (3/2)^fuel = delay * (3/2)^(fuel+1) from by ring]; exact hbig)

theorem pipeLoop_ok_aux : ∀ (j k fuel : Nat) (slept : ℚ) (env : Nat → PipeAttempt) (r : String),
    (∀ i, i < j → env (k + i) = .err 2) → env (k + j) = .ok r → k + j ≤ 11 → j < fuel →
    pipeSendLoop env fuel k ((3/100) * (3/2)^k) slept
      = .ok r (slept + (3/50) * ((3/2)^(k+j) - (3/2)^k)) := by
  intro j
  induction j with
  | zero =>
    intro k fuel slept env r _ hok _ hfuel
    match fuel, hfuel with
    | fuel + 1, _ =>
      rw [pipeSendLoop_succ_ok env fuel k _ slept r (show env k = .ok r from hok)]
      rw [show k + 0 = k from rfl]
      rw [show slept + (3/50) * ((3/2:ℚ)^k - (3/2)^k) = slept from by ring]
  | succ j ih =>
    intro k fuel slept env r hfnf hok hk hfuel
    match fuel, hfuel with
    | fuel + 1, _ =>
      rw [pipeSendLoop_succ_err env fuel k _ slept 2 (show env k = .err 2 from hfnf 0 (by omega))]
      rw [if_neg (by norm_num [ERROR_FILE_NOT_FOUND])]
      have hle : ((3:ℚ)/100) * (3/2)^k ≤ 2 := by
        have h10 : ((3:ℚ)/2)^k ≤ (3/2)^10 :=
          pow_le_pow_right (by norm_num) (by omega)
        nlinarith
      rw [if_neg (by simp only [MAX_TIMEOUT]; exact not_lt.mpr hle)]
      rw [show ((3:ℚ)/100) * (3/2)^k * (3/2) = (3/100) * (3/2)^(k+1) from by ring]
      have hrec := ih (k + 1) fuel (slept + (3/100) * (3/2)^k) env r
        (fun i hi => by
          rw [show k + 1 + i = k + (i + 1) from by omega]
          exact hfnf (i + 1) (by omega))
        (by rw [show k + 1 + j = k + (j + 1) from by omega]; exact hok)
        (by omega) (by omega)
      rw [hrec]
      rw [show k + 1 + j = k + (j + 1) from by omega]
      rw [show slept + (3/100) * ((3:ℚ)/2)^k + (3/50) * ((3/2)^(k+(j+1)) - (3/2)^(k+1))
          = slept + (3/50) * ((3/2)^(k+(j+1)) - (3/2)^k) from by ring]

theorem pipeLoop_raise_aux : ∀ (m k fuel : Nat) (slept : ℚ) (env : Nat → PipeAttempt),
    k + m = 11 → (∀ i, i ≤ m → env (k + i) = .err 2) → m + 1 < fuel →
    pipeSendLoop env fuel k ((3/100) * (3/2)^k) slept
      = .raised 2 (slept + (3/50) * ((3/2)^11 - (3/2)^k)) := by
  intro m
  induction m with
  | zero =>
    intro k fuel slept env hk hfnf hfuel
    match fuel, hfuel with
    | fuel + 1, _ =>
      rw [pipeSendLoop_succ_err env fuel k _ slept 2 (show env k = .err 2 from hfnf 0 (by omega))]
      rw [if_neg (by norm_num [ERROR_FILE_NOT_FOUND])]
      have hk11 : k = 11 := by omega
      subst hk11
      rw [if_pos (by norm_num [MAX_TIMEOUT])]
      rw [show slept + (3/50) * (((3:ℚ)/2)^11 - (3/2)^11) = slept from by ring]
  | succ m ih =>
    intro k fuel slept env hk hfnf hfuel
    match fuel, hfuel with
    | fuel + 1, _ =>
      rw [pipeSendLoop_succ_err env fuel k _ slept 2 (show env k = .err 2 from hfnf 0 (by omega))]
      rw [if_neg (by norm_num [ERROR_FILE_NOT_FOUND])]
      have hle : ((3:ℚ)/100) * (3/2)^k ≤ 2 := by
        have h10 : ((3:ℚ)/2)^k ≤ (3/2)^10 :=
          pow_le_pow_right (by norm_num) (by omega)
        nlinarith
      rw [if_neg (by simp only [MAX_TIMEOUT]; exact not_lt.mpr hle)]
      rw [show ((3:ℚ)/100) * (3/2)^k * (3/2) = (3/100) * (3/2)^(k+1) from by ring]
      have hrec := ih (k + 1) fuel (slept + (3/100) * (3/2)^k) env
        (by omega)
        (fun i hi => by
          rw [show k + 1 + i = k + (i + 1) from by omega]
          exact hfnf (i + 1) (by omega))
        (by omega)
      rw [hrec]
      rw [show slept + (3/100) * ((3:ℚ)/2)^k + (3/50) * ((3/2)^11 - (3/2)^(k+1))
          = slept + (3/50) * ((3/2)^11 - (3/2)^k) from by ring]

/-- An environment in which the pipe endpoint appears just before the 10th
`CallNamedPipe` attempt. -/
def env9 : Nat → PipeAttempt := fun k => if k < 9 then .err 2 else .ok "reply"

/-- C7, counterexample: with the endpoint appearing at the 10th attempt, the
cumulative time slept has already exceeded 2.0 (it is 57513/25600 ≈ 2.247)
— under the claim the error would have been propagated by then — yet the
call still succeeds: the loop only gives up when the *current delay* exceeds
`MAX_TIMEOUT`, not when cumulative elapsed time does. -/
theorem pipe_retry_counterexample :
    pipe_send_to_server_binary env9 = .ok "reply" (57513/25600)
  ∧ ((57513:ℚ)/25600) > 2 := by
  constructor
  · norm_num [pipe_send_to_server_binary, pipeSendLoop, env9, MAX_TIMEOUT, ERROR_FILE_NOT_FOUND]
  · norm_num

/-- C7, amended: a failure whose cause is not `ERROR_FILE_NOT_FOUND` is
propagated immediately with no sleeping; only not-found failures are
retried, with delays `0.03 · 1.5^k`; the call succeeds whenever the endpoint
appears at some attempt `j ≤ 11` (having slept `0.06·(1.5^j − 1)`, which can
exceed 2.0); and if the endpoint never appears the error is propagated at
the 12th attempt — the first whose current delay exceeds `MAX_TIMEOUT = 2.0`
— after a total sleep of 525297/102400 ≈ 5.13 time units.  The fuel-out
outcome of the embedding is unreachable. -/
theorem pipe_retry_backoff (env : Nat → PipeAttempt) :
    (∀ code : ℤ, code ≠ ERROR_FILE_NOT_FOUND → env 0 = .err code →
       pipe_send_to_server_binary env = .raised code 0)
  ∧ (∀ (r : String) (j : Nat), j ≤ 11 → (∀ i, i < j → env i = .err 2) → env j = .ok r →
       pipe_send_to_server_binary env = .ok r ((3/50) * ((3/2)^j - 1)))
  ∧ ((∀ i, i ≤ 11 → env i = .err 2) →
       pipe_send_to_server_binary env = .raised 2 (525297/102400))
  ∧ ((525297:ℚ)/102400 = (3/50) * ((3/2)^11 - 1) ∧ ((525297:ℚ)/102400) > 2)
  ∧ pipe_send_to_server_binary env ≠ .fuelOut := by
  refine ⟨?_, ?_, ?_, ⟨by norm_num, by norm_num⟩, ?_⟩
  · intro code hc h0
    show pipeSendLoop env 64 0 (3/100) 0 = PipeOutcome.raised code 0
    rw [pipeSendLoop_succ_err env 63 0 (3/100) 0 code h0, if_pos hc]
  · intro r j hj hfnf hok
    have := pipeLoop_ok_aux j 0 64 0 env r
      (fun i hi => by rw [show 0 + i = i from by omega]; exact hfnf i hi)
      (by rw [show 0 + j = j from by omega]; exact hok) (by omega) (by omega)
    rw [show ((3:ℚ)/100) * (3/2)^0 = 3/100 from by norm_num] at this
    show pipeSendLoop env 64 0 (3/100) 0 = _
    rw [this]
    rw [show (0:ℚ) + (3/50) * ((3/2)^(0+j) - (3/2)^0) = (3/50) * ((3/2)^j - 1) from by
      rw [show 0 + j = j from by omega]
      ring]
  · intro hfnf
    have := pipeLoop_raise_aux 11 0 64 0 env (by omega)
      (fun i hi => by rw [show 0 + i = i from by omega]; exact hfnf i hi) (by omega)
    rw [show ((3:ℚ)/100) * (3/2)^0 = 3/100 from by norm_num] at this
    show pipeSendLoop env 64 0 (3/100) 0 = _
    rw [this]
    norm_num
  · exact pipeSendLoop_no_fuelOut_aux 63 env 0 (3/100) 0 (by norm_num [MAX_TIMEOUT])

/-- An environment whose failures are never `ERROR_FILE_NOT_FOUND`. -/
def envOther : Nat → PipeAttempt := fun _ => .err 5

/-- An environment in which the endpoint never appears. -/
def envAllFnf : Nat → PipeAttempt := fun _ => .err 2

/-- Witness for the amended C7 at concrete environments. -/
theorem pipe_retry_backoff_witness :
    pipe_send_to_server_binary envOther = .raised 5 0
  ∧ pipe_send_to_server_binary env9 = .ok "reply" ((3/50) * ((3/2)^9 - 1))
  ∧ pipe_send_to_server_binary envAllFnf = .raised 2 (525297/102400) :=
  ⟨(pipe_retry_backoff envOther).1 5 (by norm_num [ERROR_FILE_NOT_FOUND]) rfl,
   (pipe_retry_backoff env9).2.1 "reply" 9 (by omega)
     (fun i hi => by simp [env9, hi]) (by norm_num [env9]),
   (pipe_retry_backoff envAllFnf).2.2.1 (fun i _ => rfl)⟩

/-! ## C8 — supervisor reference counting -/

theorem except_map_ok {α β : Type} (a : α) (f : α → β) :
    (f <$> (Except.ok a : Except PyErr α)) = Except.ok (f a) := rfl

theorem except_pure {α : Type} (a : α) : (pure a : Except PyErr α) = Except.ok a := rfl

theorem except_throw {α : Type} (e : PyErr) : (throw e : Except PyErr α) = Except.error e := rfl

/-- Constructing `RunServer` for an unregistered exe path: a fresh instance
is allocated and registered, the process is launched once, and the caller is
recorded as the only holder. -/
theorem acquire_fresh (w : World) (c : Caller) (p : String)
    (hreg : lookupInst w.instances p = Option.none)
    (hnone : lookupInst w.instances "None" = Option.none)
    (hfile : w.fileExists p = true) :
    acquire w c (some p) Option.none
      = .ok ({ instances := (p, w.nextInstId) :: w.instances,
               sups := (w.nextInstId,
                 { server_exe := some p, server_py := Option.none,
                   process := some w.nextPid, references := [get_id c] })
                 :: (w.nextInstId, { references := [] }) :: w.sups,
               nextInstId := w.nextInstId + 1,
               procs := (w.nextPid, .running) :: w.procs,
               nextPid := w.nextPid + 1,
               spawnCount := w.spawnCount + 1,
               fileExists := w.fileExists,
               pythonInterp := w.pythonInterp }, w.nextInstId) := by
  simp [acquire, runServerNew, runServerInit, run_server, terminate_server, spawn, setSup,
    strOpt, check_server_path, pollIsNone, addRef, lookupSup,
    except_bind_ok, except_map_ok, except_pure, except_throw, hreg, hnone, hfile]

/-- Constructing `RunServer` for an already-registered path whose process is
still running: the existing instance is returned, nothing is launched, and
the caller joins the holder set. -/
theorem acquire_running (w : World) (c : Caller) (p : String) (i pid : Nat) (s : Sup)
    (hlook : lookupInst w.instances p = some i)
    (hnone : lookupInst w.instances "None" = Option.none)
    (hsup : lookupSup w.sups i = some s)
    (hexe : s.server_exe = some p)
    (hproc : s.process = some pid)
    (hrun : procStatus w.procs pid = .running) :
    acquire w c (some p) Option.none
      = .ok ({ w with instances := (p, i) :: w.instances,
                      sups := (i, { s with references := addRef s.references (get_id c) })
                        :: w.sups }, i) := by
  have hset : ({ s with server_exe := some p } : Sup) = s := by
    cases s
    simp only [Sup.mk.injEq] at hexe ⊢
    exact ⟨hexe.symm, trivial, trivial, trivial⟩
  have hcsp : ∀ prev, check_server_path prev Option.none = .ok () := by
    intro prev
    cases prev <;> rfl
  simp [acquire, runServerNew, runServerInit, setSup, strOpt, check_server_path,
    pollIsNone, except_bind_ok, except_map_ok, except_pure, except_throw,
    hlook, hnone, hsup, hexe, hproc, hrun, hset, hcsp]

/-- C8: two acquisitions for the same exe path return the same instance and
spawn exactly one process; a release that leaves another holder only shrinks
the holder set and leaves the process table untouched; the release that
empties the holder set terminates the process; terminating an
already-exited process is a no-op. -/
theorem runServer_refcounting
    (w : World) (c1 c2 : Caller) (p : String)
    (hp : p ≠ "None")
    (hreg : lookupInst w.instances p = Option.none)
    (hnone : lookupInst w.instances "None" = Option.none)
    (hfile : w.fileExists p = true) :
    (∃ w1 w2,
       acquire w c1 (some p) Option.none = .ok (w1, w.nextInstId)
     ∧ acquire w1 c2 (some p) Option.none = .ok (w2, w.nextInstId)
     ∧ w1.spawnCount = w.spawnCount + 1
     ∧ w2.spawnCount = w.spawnCount + 1
     ∧ refsOf w1 w.nextInstId = [get_id c1]
     ∧ refsOf w2 w.nextInstId = addRef [get_id c1] (get_id c2))
  ∧ (∀ (v : World) (i : Nat) (s : Sup) (c : Caller),
       lookupSup v.sups i = some s →
       (s.references.erase (get_id c)).isEmpty = false →
         release v i c = setSup v i { s with references := s.references.erase (get_id c) }
       ∧ refsOf (release v i c) i = s.references.erase (get_id c)
       ∧ (release v i c).procs = v.procs)
  ∧ (∀ (v : World) (i : Nat) (s : Sup) (c : Caller) (pid : Nat),
       lookupSup v.sups i = some s →
       (s.references.erase (get_id c)).isEmpty = true →
       s.process = some pid →
       procStatus v.procs pid = .running →
         release v i c = setSup (setProcExited v pid) i { s with references := [] }
       ∧ procStatus (release v i c).procs pid = .exited)
  ∧ (∀ (v : World) (s : Sup) (pid : Nat),
       s.process = some pid →
       procStatus v.procs pid = .exited →
       terminate_server v s = (v, s)) := by
  refine ⟨?_, ?_, ?_, ?_⟩
  · refine ⟨_, _, acquire_fresh w c1 p hreg hnone hfile,
      acquire_running _ c2 p w.nextInstId w.nextPid
        ⟨some p, Option.none, some w.nextPid, [get_id c1]⟩
        ?_ ?_ ?_ rfl rfl ?_, rfl, rfl, ?_, ?_⟩ <;>
      simp [lookupInst, lookupSup, procStatus, refsOf, hp, hnone]
  · intro v i s c hs hne
    refine ⟨?_, ?_, ?_⟩ <;> simp [release, hs, hne, setSup, refsOf, lookupSup]
  · intro v i s c pid hs he hproc hrun
    refine ⟨?_, ?_⟩ <;>
      simp [release, hs, he, terminate_server, pollIsNone, hproc, hrun, setSup,
        setProcExited, procStatus]
  · intro v s pid hproc hex
    simp [terminate_server, pollIsNone, hproc, hex]

/-- A world for exercising the supervisor: no instance registered yet, the
exe path `"srv.exe"` exists on disk. -/
def wW : World := { fileExists := fun q => q == "srv.exe" }

/-- Witness for C8 at the concrete world `wW` with callers of ids 1 and 2. -/
theorem runServer_refcounting_witness :
    ("srv.exe" ≠ "None"
   ∧ lookupInst wW.instances "srv.exe" = Option.none
   ∧ lookupInst wW.instances "None" = Option.none
   ∧ wW.fileExists "srv.exe" = true)
  ∧ ((∃ w1 w2,
       acquire wW ⟨1, Option.none⟩ (some "srv.exe") Option.none = .ok (w1, wW.nextInstId)
     ∧ acquire w1 ⟨2, Option.none⟩ (some "srv.exe") Option.none = .ok (w2, wW.nextInstId)
     ∧ w1.spawnCount = wW.spawnCount + 1
     ∧ w2.spawnCount = wW.spawnCount + 1
     ∧ refsOf w1 wW.nextInstId = [get_id ⟨1, Option.none⟩]
     ∧ refsOf w2 wW.nextInstId = addRef [get_id ⟨1, Option.none⟩] (get_id ⟨2, Option.none⟩))
  ∧ (∀ (v : World) (i : Nat) (s : Sup) (c : Caller),
       lookupSup v.sups i = some s →
       (s.references.erase (get_id c)).isEmpty = false →
         release v i c = setSup v i { s with references := s.references.erase (get_id c) }
       ∧ refsOf (release v i c) i = s.references.erase (get_id c)
       ∧ (release v i c).procs = v.procs)
  ∧ (∀ (v : World) (i : Nat) (s : Sup) (c : Caller) (pid : Nat),
       lookupSup v.sups i = some s →
       (s.references.erase (get_id c)).isEmpty = true →
       s.process = some pid →
       procStatus v.procs pid = .running →
         release v i c = setSup (setProcExited v pid) i { s with references := [] }
       ∧ procStatus (release v i c).procs pid = .exited)
  ∧ (∀ (v : World) (s : Sup) (pid : Nat),
       s.process = some pid →
       procStatus v.procs pid = .exited →
       terminate_server v s = (v, s))) :=
  ⟨⟨by decide, rfl, rfl, rfl⟩,
   runServer_refcounting wW ⟨1, Option.none⟩ ⟨2, Option.none⟩ "srv.exe"
     (by decide) rfl rfl rfl⟩

/-! ## C9 — terminate_server and the holder set across a crash -/

/-- A world in which instance 0 manages the existing exe `"srv.exe"`, its
recorded process 0 has crashed (exited), and the pre-crash holder set is
`R`. -/
def wCrashR (R : List ℤ) : World :=
  { instances := [("srv.exe", 0)],
    sups := [(0, ⟨some "srv.exe", Option.none, some 0, R⟩)],
    nextInstId := 1,
    procs := [(0, .exited)],
    nextPid := 1,
    spawnCount := 1,
    fileExists := fun q => q == "srv.exe",
    pythonInterp := true }

/-- C9 counterexample: with a crashed process and pre-crash holder 1,
`terminate_server` does *not* replace the holder set with an empty set (it
is a no-op, because the guard requires a still-running process), and after
the crash-and-relaunch acquisition by caller 2 the holder set is `[2, 1]` —
the pre-crash holder 1 is still recorded, not forgotten. -/
theorem crash_relaunch_counterexample :
    (terminate_server (wCrashR [1]) ⟨some "srv.exe", Option.none, some 0, [1]⟩
       = (wCrashR [1], ⟨some "srv.exe", Option.none, some 0, [1]⟩)
   ∧ (⟨some "srv.exe", Option.none, some 0, [(1 : ℤ)]⟩ : Sup).references ≠ [])
  ∧ (∃ w', acquire (wCrashR [1]) ⟨2, Option.none⟩ (some "srv.exe") Option.none = .ok (w', 0)
       ∧ refsOf w' 0 = [2, 1]
       ∧ (1 : ℤ) ∈ refsOf w' 0) :=
  ⟨⟨rfl, by decide⟩,
   ⟨{ instances := ("srv.exe", 0) :: (wCrashR [1]).instances,
      sups := (0, ⟨some "srv.exe", Option.none, some 1, [2, 1]⟩) :: (wCrashR [1]).sups,
      nextInstId := 1,
      procs := (1, .running) :: (wCrashR [1]).procs,
      nextPid := 2,
      spawnCount := 2,
      fileExists := (wCrashR [1]).fileExists,
      pythonInterp := true }, rfl, rfl, by decide⟩⟩

/-- C9 amended: `terminate_server` clears the holder set and kills the
process only when the recorded process is still running; when the process
has exited it is a no-op, so a crash-and-relaunch acquisition *retains*
every pre-crash holder and merely adds the new caller. -/
theorem crash_relaunch_retains_holders :
    (∀ (v : World) (s : Sup), pollIsNone v s = false → terminate_server v s = (v, s))
  ∧ (∀ (v : World) (s : Sup) (pid : Nat), s.process = some pid →
       pollIsNone v s = true →
       terminate_server v s = (setProcExited v pid, { s with references := [] }))
  ∧ (∀ (R : List ℤ) (c : Caller), ∃ w',
       acquire (wCrashR R) c (some "srv.exe") Option.none = .ok (w', 0)
     ∧ refsOf w' 0 = addRef R (get_id c)) := by
  refine ⟨?_, ?_, ?_⟩
  · intro v s h
    simp [terminate_server, h]
  · intro v s pid hp h
    simp [terminate_server, h, hp]
  · intro R c
    exact ⟨{ instances := ("srv.exe", 0) :: (wCrashR R).instances,
             sups := (0, ⟨some "srv.exe", Option.none, some 1, addRef R (get_id c)⟩)
               :: (wCrashR R).sups,
             nextInstId := 1,
             procs := (1, .running) :: (wCrashR R).procs,
             nextPid := 2,
             spawnCount := 2,
             fileExists := (wCrashR R).fileExists,
             pythonInterp := true }, rfl, rfl⟩

/-- Witness for the amended C9 statement at the crashed world with pre-crash
holder set `[1]` and the new caller of id 2. -/
theorem crash_relaunch_retains_holders_witness :
    ∃ w', acquire (wCrashR [1]) ⟨2, Option.none⟩ (some "srv.exe") Option.none = .ok (w', 0)
        ∧ refsOf w' 0 = addRef [1] (get_id ⟨2, Option.none⟩) :=
  crash_relaunch_retains_holders.2.2 [1] ⟨2, Option.none⟩

/-! ## C10 — caller identity -/

/-- The sup holding the single holder id 10. -/
def supTen : Sup := { references := [(10 : ℤ)] }

/-- A world whose instance 0 is held exactly by id 10. -/
def wTen : World := { sups := [(0, supTen)] }

/-- C10: `isinstance(caller, object)` always holds, so `get_id` returns
`id(caller)` for every caller — integers included, the documented
return-the-integer branch being unreachable — hence two callers with equal
integer values but different identities get different ids, and a release by
a value-equal but not identical caller removes nothing: the original holder
stays in the set. -/
theorem get_id_object_identity (c cEq : Caller) (v : World) (i : Nat) (s : Sup)
    (hs : lookupSup v.sups i = some s)
    (hmem : get_id c ∈ s.references)
    (habs : get_id cEq ∉ s.references) :
    isinstance_object c = true
  ∧ get_id c = (c.oid : ℤ)
  ∧ (c.intValue = cEq.intValue → c.oid ≠ cEq.oid → get_id c ≠ get_id cEq)
  ∧ refsOf (release v i cEq) i = s.references
  ∧ get_id c ∈ refsOf (release v i cEq) i := by
  have herase : s.references.erase (get_id cEq) = s.references :=
    List.erase_of_not_mem habs
  have hne : s.references.isEmpty = false := by
    cases hr : s.references with
    | nil => rw [hr] at hmem; cases hmem
    | cons a l => rfl
  have hrefs : refsOf (release v i cEq) i = s.references := by
    simp [release, hs, herase, hne, setSup, refsOf, lookupSup]
  refine ⟨rfl, rfl, ?_, hrefs, ?_⟩
  · intro _ hne' heq
    apply hne'
    simpa [get_id, isinstance_object] using heq
  · rw [hrefs]
    exact hmem

/-- Witness for C10: the holder with id 10 acquired instance 0; a release by
the value-equal caller `⟨11, some 5⟩` (same integer value 5, different
identity) leaves holder 10 in place. -/
theorem get_id_object_identity_witness :
    (lookupSup wTen.sups 0 = some supTen
   ∧ get_id ⟨10, some 5⟩ ∈ supTen.references
   ∧ get_id ⟨11, some 5⟩ ∉ supTen.references)
  ∧ (isinstance_object ⟨10, some 5⟩ = true
   ∧ get_id ⟨10, some 5⟩ = ((10 : Nat) : ℤ)
   ∧ ((⟨10, some 5⟩ : Caller).intValue = (⟨11, some 5⟩ : Caller).intValue →
        (⟨10, some 5⟩ : Caller).oid ≠ (⟨11, some 5⟩ : Caller).oid →
        get_id ⟨10, some 5⟩ ≠ get_id ⟨11, some 5⟩)
   ∧ refsOf (release wTen 0 ⟨11, some 5⟩) 0 = supTen.references
   ∧ get_id ⟨10, some 5⟩ ∈ refsOf (release wTen 0 ⟨11, some 5⟩) 0) :=
  ⟨⟨rfl, by decide, by decide⟩,
   get_id_object_identity ⟨10, some 5⟩ ⟨11, some 5⟩ wTen 0 supTen rfl
     (by decide) (by decide)⟩

/-- Witness for C6 at a concrete state: storing an object in a fresh server
issues id `"1"`, the table gains the binding, and unknown ids fail. -/
theorem referenceTable_store_resolve_witness :
    wfTable ex0
  ∧ ((store ex0 (.obj 77 "ComplicatedObject")).1 = natStr (ex0.localVariableCount + 1)
  ∧ (store ex0 (.obj 77 "ComplicatedObject")).2.localVariableCount = ex0.localVariableCount + 1
  ∧ lookupStr ex0.localVariables (store ex0 (.obj 77 "ComplicatedObject")).1 = Option.none
  ∧ resolve (store ex0 (.obj 77 "ComplicatedObject")).2 (.str (store ex0 (.obj 77 "ComplicatedObject")).1)
      = .ok (.obj 77 "ComplicatedObject")
  ∧ (∀ k w, lookupStr ex0.localVariables k = some w →
       lookupStr (store ex0 (.obj 77 "ComplicatedObject")).2.localVariables k = some w)
  ∧ wfTable (store ex0 (.obj 77 "ComplicatedObject")).2
  ∧ (∀ j, ex0.localVariableCount < j →
       resolve ex0 (.str (natStr j)) = .error (keyError (natStr j) frFromJson))) :=
  ⟨rfl, referenceTable_store_resolve ex0 (.obj 77 "ComplicatedObject") rfl⟩

end InterfaceProxy
